import Mathlib

/-!
# etrcpp console: RPC transport and command layer

A shallow embedding of `rpc_client.cpp` (class `RPCClient`), `commands.cpp`
(class `Commands`) and the function `executeCommand` of `etrcpp.cpp` of the
etrcpp console client, with the properties of the specification stated and
proved over it.

Modelling conventions

* A C++ `std::string` is a Lean `String`; every `Char` of it stands for one C++
  `char`, so `length()` is the number of `Char`s.
* `uint64_t` values are `Nat` (reduced modulo `2 ^ 64` where the code can
  overflow), `int` and `long` values are `Int`.
* A C++ exception is a value of `Exception`; a function that can throw returns
  `Except Exception _`.
* The outside world (libcurl, the JSON text parser and serialiser of the
  nlohmann library) is a parameter `Env`.
-/

namespace etrid

/-! ## Exceptions -/

/-- The exception classes that the client code throws or lets escape, each
carrying its `what()` text. -/
inductive Exception where
  | invalid_argument (what : String)
  | out_of_range (what : String)
  | runtime_error (what : String)
  | type_error (what : String)
  | parse_error (what : String)
  | other_error (what : String)
  deriving DecidableEq, Repr

/-- The text returned by `e.what()`. -/
def Exception.what : Exception → String
  | .invalid_argument w => w
  | .out_of_range w => w
  | .runtime_error w => w
  | .type_error w => w
  | .parse_error w => w
  | .other_error w => w

deriving instance DecidableEq for Except

/-! ## Strings -/

/-- The call `s.substr(pos, n)` for `pos ≤ s.length()`. -/
def substr (s : String) (pos n : Nat) : String :=
  ⟨(s.data.drop pos).take n⟩

/-- The test `std::isdigit(c)` in the C locale. -/
def isdigit (c : Char) : Bool :=
  decide ('0' ≤ c) && decide (c ≤ '9')

/-- The test `std::isspace(c)` in the C locale. -/
def isspace (c : Char) : Bool :=
  c == ' ' || c == '\t' || c == '\n' || c == Char.ofNat 11 || c == Char.ofNat 12 || c == '\r'

/-! ## The regular expression of `validateAddress`

`std::regex_match` succeeds when the whole character sequence matches the
expression, so the anchors `^` and `$` of the pattern hold trivially and are not
represented.  What remains of `^0x[0-9a-fA-F]{40}$` is a sequence of
single-character atoms, each with a repetition count. -/

/-- One single-character atom: a literal character, or a bracket expression
given by its list of character ranges. -/
inductive RegexAtom where
  | chr (c : Char)
  | bracket (ranges : List (Char × Char))
  deriving Repr

/-- An atom followed by a count: `a{count}` (a bare atom has count 1). -/
structure RegexPiece where
  atom : RegexAtom
  count : Nat
  deriving Repr

/-- Whether one character matches an atom. -/
def RegexAtom.accepts : RegexAtom → Char → Bool
  | .chr d, c => c == d
  | .bracket ranges, c => ranges.any fun r => decide (r.1 ≤ c) && decide (c ≤ r.2)

/-- Consume exactly `n` characters that match `a`; the rest of the input on
success. -/
def matchCount (a : RegexAtom) : Nat → List Char → Option (List Char)
  | 0, s => some s
  | _ + 1, [] => none
  | n + 1, c :: s => if a.accepts c then matchCount a n s else none

/-- Match the pieces in order against the whole input. -/
def matchPieces : List RegexPiece → List Char → Bool
  | [], s => s.isEmpty
  | p :: ps, s =>
    match matchCount p.atom p.count s with
    | some rest => matchPieces ps rest
    | none => false

/-- The call `std::regex_match(s, re)`. -/
def regex_match (s : String) (re : List RegexPiece) : Bool :=
  matchPieces re s.data

/-- The pattern `^0x[0-9a-fA-F]{40}$`. -/
def hex_regex : List RegexPiece :=
  [⟨.chr '0', 1⟩, ⟨.chr 'x', 1⟩, ⟨.bracket [('0', '9'), ('a', 'f'), ('A', 'F')], 40⟩]

/-! ## `Commands::validateAddress` -/

/-- The helper `Commands::validateAddress`: returns normally for an accepted
address and throws `std::invalid_argument` otherwise. -/
def validateAddress (address : String) : Except Exception Unit :=
  if address.length == 0 then
    .error (.invalid_argument "Address cannot be empty")
  else if substr address 0 2 == "0x" then
    if address.length != 42 then
      .error (.invalid_argument "Invalid Ethereum-style address length")
    else if !regex_match address hex_regex then
      .error (.invalid_argument "Invalid Ethereum-style address format")
    else
      .ok ()
  else if substr address 0 3 == "etr" then
    if address.length < 10 then
      .error (.invalid_argument "Invalid ËTRID address length")
    else
      .ok ()
  else
    .error (.invalid_argument "Invalid address format: must start with '0x' or 'etr'")

/-! ## JSON values (`nlohmann::json`) -/

/-- A value of `nlohmann::json`.  An object is the list of its members; a key is
looked up from the front.  A `number_float` carries the bit pattern of its
`double`. -/
inductive Json where
  | null
  | boolean (b : Bool)
  | number_integer (n : Int)
  | number_unsigned (n : Nat)
  | number_float (bits : Nat)
  | string (s : String)
  | array (items : List Json)
  | object (members : List (String × Json))
  deriving Repr

instance : Inhabited Json := ⟨Json.null⟩

/-- The text of `j.type_name()`. -/
def Json.type_name : Json → String
  | .null => "null"
  | .boolean _ => "boolean"
  | .number_integer _ => "number"
  | .number_unsigned _ => "number"
  | .number_float _ => "number"
  | .string _ => "string"
  | .array _ => "array"
  | .object _ => "object"

/-- The member stored under `key`, if `j` is an object that has one. -/
def Json.find (j : Json) (key : String) : Option Json :=
  match j with
  | .object members => (members.find? fun m => m.1 == key).map Prod.snd
  | _ => none

/-- The call `j.contains(key)`: whether `j` is an object with a member `key`. -/
def Json.contains (j : Json) (key : String) : Bool :=
  (j.find key).isSome

/-- The `what()` text of a `json::type_error` with the given id. -/
def type_error_what (id : Nat) (msg : String) : String :=
  "[json.exception.type_error." ++ toString id ++ "] " ++ msg

/-- The value of `j[key]` on a non-const `j`: the member of an object (`null` is
what a fresh member holds), `null` for a `null` value, and a `type_error`
for every other type. -/
def Json.index (j : Json) (key : String) : Except Exception Json :=
  match j with
  | .object _ => .ok ((j.find key).getD .null)
  | .null => .ok .null
  | _ => .error (.type_error (type_error_what 305
      ("cannot use operator[] with a string argument with " ++ j.type_name)))

/-- The conversion `static_cast<int>(n)` of a 64-bit integer: reduction into
the range of a 32-bit `int`. -/
def static_cast_int (n : Int) : Int :=
  (n + 2 ^ 31) % 2 ^ 32 - 2 ^ 31

/-- The call `j.value(key, default_value)` with a string default: the member
converted with `get<std::string>()`, or the default when `j` is an object
without that member. -/
def Json.value_string (j : Json) (key : String) (default_value : String) :
    Except Exception String :=
  match j with
  | .object _ =>
    match j.find key with
    | some (.string s) => .ok s
    | some v => .error (.type_error (type_error_what 302
        ("type must be string, but is " ++ v.type_name)))
    | none => .ok default_value
  | _ => .error (.type_error (type_error_what 306
      ("cannot use value() with " ++ j.type_name)))

/-- The call `j.value(key, default_value)` with an `int` default: the member
converted with `get<int>()`, or the default when `j` is an object without that
member.  `double_to_int` is the platform conversion of a `double` to `int`. -/
def Json.value_int (double_to_int : Nat → Int) (j : Json) (key : String)
    (default_value : Int) : Except Exception Int :=
  match j with
  | .object _ =>
    match j.find key with
    | some (.number_integer n) => .ok (static_cast_int n)
    | some (.number_unsigned n) => .ok (static_cast_int n)
    | some (.number_float bits) => .ok (double_to_int bits)
    | some (.boolean b) => .ok (if b then 1 else 0)
    | some v => .error (.type_error (type_error_what 302
        ("type must be number, but is " ++ v.type_name)))
    | none => .ok default_value
  | _ => .error (.type_error (type_error_what 306
      ("cannot use value() with " ++ j.type_name)))

/-! ## `RPCResponse` (types.h) -/

/-- The struct `RPCResponse`. -/
structure RPCResponse where
  success : Bool
  result : Json
  error_message : String
  error_code : Int
  deriving Repr

/-- The constructor `RPCResponse()`. -/
def RPCResponse.default : RPCResponse :=
  { success := false, result := .null, error_message := "", error_code := 0 }

/-- The constructor `RPCResponse(bool s, const nlohmann::json& r)`. -/
def RPCResponse.ofResult (s : Bool) (r : Json) : RPCResponse :=
  { success := s, result := r, error_message := "", error_code := 0 }

/-- The constructor `RPCResponse(bool s, const std::string& err, int code)`;
`result` is a default-constructed (null) JSON value. -/
def RPCResponse.ofError (s : Bool) (err : String) (code : Int) : RPCResponse :=
  { success := s, result := .null, error_message := err, error_code := code }

/-! ## `RPCClient` (rpc_client.cpp) -/

/-- The class `RPCClient::Impl`.  `curl` records whether the handle is
non-null; `request_id` is a `uint64_t`. -/
structure Impl where
  url : String
  timeout : Int
  username : String
  password : String
  curl : Bool
  request_id : Nat
  deriving DecidableEq, Repr

/-- The constructor `Impl(u, t)`; `curl_easy_init_ok` tells whether
`curl_easy_init()` returned a handle. -/
def Impl.init (u : String) (t : Int) (curl_easy_init_ok : Bool) : Except Exception Impl :=
  if !curl_easy_init_ok then
    .error (.runtime_error "Failed to initialize CURL")
  else
    .ok { url := u, timeout := t, username := "", password := "", curl := true, request_id := 0 }

/-- What libcurl reports after `curl_easy_perform`: the `CURLcode` (0 is
`CURLE_OK`), its `curl_easy_strerror` text, the `CURLINFO_RESPONSE_CODE` and the
bytes handed to `WriteCallback`. -/
structure CurlResult where
  res : Nat
  strerror : String
  http_code : Int
  response_string : String
  deriving DecidableEq, Repr

/-- The world outside the client: the serialiser `json::dump` (it throws on a
string that is not UTF-8), the HTTP exchange made by libcurl for a client
configuration and a request body, the text parser `json::parse`, and the
conversion of a `double` to `int`, and the indented serialiser `json::dump(2)`
used for printing. -/
structure Env where
  dump : Json → Except Exception String
  curl_easy_perform : Impl → String → CurlResult
  parse : String → Except Exception Json
  double_to_int : Nat → Int
  dump_pretty : Json → Except Exception String

/-- The text of `std::to_string(n)` for a `long`. -/
def to_string (n : Int) : String :=
  if n < 0 then "-" ++ Nat.repr n.natAbs else Nat.repr n.toNat

/-- The member `RPCClient::setURL`. -/
def setURL (url : String) (st : Impl) : Impl :=
  { st with url := url }

/-- The member `RPCClient::setTimeout`. -/
def setTimeout (timeout : Int) (st : Impl) : Impl :=
  { st with timeout := timeout }

/-- The member `RPCClient::setAuth`. -/
def setAuth (username password : String) (st : Impl) : Impl :=
  { st with username := username, password := password }

/-- The member `RPCClient::makeHTTPRequest`. -/
def makeHTTPRequest (env : Env) (st : Impl) (body : String) : Except Exception String :=
  if !st.curl then
    .error (.runtime_error "CURL not initialized")
  else
    let x := env.curl_easy_perform st body
    if x.res != 0 then
      .error (.runtime_error ("CURL request failed: " ++ x.strerror))
    else if x.http_code != 200 then
      .error (.runtime_error ("HTTP error: " ++ to_string x.http_code))
    else
      .ok x.response_string

/-- The member `RPCClient::parseResponse`: a `parse_error` is rethrown as a
`runtime_error`, any other exception passes through. -/
def parseResponse (env : Env) (response : String) : Except Exception Json :=
  match env.parse response with
  | .ok j => .ok j
  | .error (.parse_error w) => .error (.runtime_error ("JSON parse error: " ++ w))
  | .error e => .error e

/-- The request object built at the start of `RPCClient::sendRequest`. -/
def request_envelope (id : Nat) (method : String) (params : Json) : Json :=
  .object [("jsonrpc", .string "2.0"), ("id", .number_unsigned id),
    ("method", .string method), ("params", params)]

/-- The pre-increment `++pImpl->request_id` on a `uint64_t`. -/
def next_request_id (st : Impl) : Nat :=
  (st.request_id + 1) % 2 ^ 64

/-- The client state during a call of `sendRequest` made on `st`: the counter
is already incremented. -/
def during_call (st : Impl) : Impl :=
  { st with request_id := next_request_id st }

/-- The request that a call of `RPCClient::sendRequest` on the client state `st`
builds: its id is the incremented counter. -/
def sent_request (method : String) (params : Json) (st : Impl) : Json :=
  request_envelope (next_request_id st) method params

/-- The first half of the `try` block of `RPCClient::sendRequest`: serialise
the request, make the HTTP exchange and parse the body. -/
def sendRequest_receive (env : Env) (request : Json) (st : Impl) : Except Exception Json :=
  match env.dump request with
  | .error e => .error e
  | .ok request_body =>
    match makeHTTPRequest env st request_body with
    | .error e => .error e
    | .ok response_body => parseResponse env response_body

/-- The second half of the `try` block of `RPCClient::sendRequest`: turn the
parsed response into an `RPCResponse`. -/
def sendRequest_classify (env : Env) (response : Json) : Except Exception RPCResponse :=
  if response.contains "error" then
    match response.index "error" with
    | .error e => .error e
    | .ok error =>
      match error.value_string "message" "Unknown error" with
      | .error e => .error e
      | .ok error_msg =>
        match error.value_int env.double_to_int "code" (-1) with
        | .error e => .error e
        | .ok error_code => .ok (RPCResponse.ofError false error_msg error_code)
  else if response.contains "result" then
    match response.index "result" with
    | .error e => .error e
    | .ok r => .ok (RPCResponse.ofResult true r)
  else
    .ok (RPCResponse.ofError false "Invalid RPC response" (-1))

/-- The member `RPCClient::sendRequest`: the response and the client state after
the call.  The counter is incremented first, and every exception of the `try`
block is turned into a response. -/
def sendRequest (env : Env) (method : String) (params : Json) (st : Impl) :
    RPCResponse × Impl :=
  let request := sent_request method params st
  let st1 := during_call st
  match sendRequest_receive env request st1 with
  | .error e => (RPCResponse.ofError false ("Request failed: " ++ e.what) (-1), st1)
  | .ok response =>
    match sendRequest_classify env response with
    | .error e => (RPCResponse.ofError false ("Request failed: " ++ e.what) (-1), st1)
    | .ok r => (r, st1)

/-- The member `RPCClient::testConnection`. -/
def testConnection (env : Env) (st : Impl) : Bool × Impl :=
  let r := sendRequest env "eth_blockNumber" (.object []) st
  (r.1.success, r.2)

/-! ## `std::stoull` -/

/-- The value of a decimal digit character. -/
def digit_value (c : Char) : Nat :=
  c.toNat - 48

/-- The call `std::stoull(str)` (base 10, no position output), as `strtoull`
does it on `str.c_str()`: leading white space is skipped, one sign is accepted,
the longest run of digits is converted and what follows is ignored.  No digit
gives `std::invalid_argument`, a magnitude above `ULLONG_MAX` gives
`std::out_of_range`, and a minus sign negates modulo `2 ^ 64`. -/
def stoull (str : String) : Except Exception Nat :=
  let c_str := str.data.takeWhile fun c => c != Char.ofNat 0
  let s := c_str.dropWhile isspace
  let negative := s.head? == some '-'
  let s := if s.head? == some '-' || s.head? == some '+' then s.tail else s
  let digits := s.takeWhile isdigit
  if digits.isEmpty then
    .error (.invalid_argument "stoull")
  else
    let v := digits.foldl (fun acc c => 10 * acc + digit_value c) 0
    if v ≥ 2 ^ 64 then
      .error (.out_of_range "stoull")
    else
      .ok (if negative then (2 ^ 64 - v) % 2 ^ 64 else v)

/-! ## `Commands` (commands.cpp)

Every operation takes the state of the client it shares and returns the state
after it, with either the `RPCResponse` it returned or the exception it threw. -/

/-- The result of one `Commands` operation. -/
abbrev Outcome := Except Exception RPCResponse × Impl

/-- The statement `return rpc_client_->sendRequest(method, params);`. -/
def return_sendRequest (env : Env) (method : String) (params : Json) (st : Impl) : Outcome :=
  let r := sendRequest env method params st
  (.ok r.1, r.2)

/-- The member `Commands::accountCreate`. -/
def accountCreate (env : Env) (name : String) (st : Impl) : Outcome :=
  let params := Json.object [("name", .string name)]
  return_sendRequest env "account_create" params st

/-- The member `Commands::accountList`. -/
def accountList (env : Env) (st : Impl) : Outcome :=
  return_sendRequest env "account_list" (.object []) st

/-- The member `Commands::accountInfo`. -/
def accountInfo (env : Env) (address : String) (st : Impl) : Outcome :=
  match validateAddress address with
  | .error e => (.error e, st)
  | .ok _ =>
    let params := Json.object [("address", .string address)]
    return_sendRequest env "account_info" params st

/-- The member `Commands::accountImport`. -/
def accountImport (env : Env) (private_key name : String) (st : Impl) : Outcome :=
  let params := Json.object [("private_key", .string private_key), ("name", .string name)]
  return_sendRequest env "account_import" params st

/-- The member `Commands::stakeTokens`. -/
def stakeTokens (env : Env) (address : String) (amount : Nat) (st : Impl) : Outcome :=
  match validateAddress address with
  | .error e => (.error e, st)
  | .ok _ =>
    if amount == 0 then
      (.ok (RPCResponse.ofError false "Invalid stake amount: must be greater than 0" (-1)), st)
    else
      let params := Json.object [("address", .string address), ("amount", .number_unsigned amount)]
      return_sendRequest env "stake_tokens" params st

/-- The member `Commands::unstakeTokens`. -/
def unstakeTokens (env : Env) (address : String) (amount : Nat) (st : Impl) : Outcome :=
  match validateAddress address with
  | .error e => (.error e, st)
  | .ok _ =>
    let params := Json.object [("address", .string address), ("amount", .number_unsigned amount)]
    return_sendRequest env "unstake_tokens" params st

/-- The member `Commands::stakeInfo`. -/
def stakeInfo (env : Env) (address : String) (st : Impl) : Outcome :=
  match validateAddress address with
  | .error e => (.error e, st)
  | .ok _ =>
    let params := Json.object [("address", .string address)]
    return_sendRequest env "stake_info" params st

/-- The member `Commands::listValidators`. -/
def listValidators (env : Env) (st : Impl) : Outcome :=
  return_sendRequest env "list_validators" (.object []) st

/-- The member `Commands::queryBalance`. -/
def queryBalance (env : Env) (address : String) (st : Impl) : Outcome :=
  match validateAddress address with
  | .error e => (.error e, st)
  | .ok _ =>
    let params := Json.object [("address", .string address)]
    return_sendRequest env "eth_getBalance" params st

/-- The member `Commands::queryBlock`.  The loop leaves `is_number` true exactly
when no character fails `std::isdigit`; the exception of `std::stoull` is not
caught here. -/
def queryBlock (env : Env) (identifier : String) (st : Impl) : Outcome :=
  let is_number := identifier.data.all isdigit
  if is_number then
    match stoull identifier with
    | .error e => (.error e, st)
    | .ok height =>
      let params := Json.object [("block_height", .number_unsigned height)]
      return_sendRequest env "eth_getBlockByNumber" params st
  else
    let params := Json.object [("block_hash", .string identifier)]
    return_sendRequest env "eth_getBlockByNumber" params st

/-- The member `Commands::queryTransaction`. -/
def queryTransaction (env : Env) (tx_hash : String) (st : Impl) : Outcome :=
  let params := Json.object [("tx_hash", .string tx_hash)]
  return_sendRequest env "eth_getTransactionByHash" params st

/-- The member `Commands::getBlockchainInfo`. -/
def getBlockchainInfo (env : Env) (st : Impl) : Outcome :=
  return_sendRequest env "blockchain_info" (.object []) st

/-- The member `Commands::getNetworkInfo`. -/
def getNetworkInfo (env : Env) (st : Impl) : Outcome :=
  return_sendRequest env "network_info" (.object []) st

/-- The member `Commands::sendTransaction`. -/
def sendTransaction (env : Env) (src dst : String) (amount fee : Nat) (st : Impl) : Outcome :=
  match validateAddress src with
  | .error e => (.error e, st)
  | .ok _ =>
    match validateAddress dst with
    | .error e => (.error e, st)
    | .ok _ =>
      if amount == 0 then
        (.ok (RPCResponse.ofError false "Invalid amount: must be greater than 0" (-1)), st)
      else
        let params := Json.object [("from", .string src), ("to", .string dst),
          ("amount", .number_unsigned amount), ("fee", .number_unsigned fee)]
        return_sendRequest env "eth_sendTransaction" params st

/-- The member `Commands::sendRawTransaction`. -/
def sendRawTransaction (env : Env) (raw_tx : String) (st : Impl) : Outcome :=
  if raw_tx.length == 0 then
    (.ok (RPCResponse.ofError false "Invalid raw transaction: empty" (-1)), st)
  else
    let params := Json.object [("raw_tx", .string raw_tx)]
    return_sendRequest env "eth_sendRawTransaction" params st

/-- The member `Commands::consensusDay`. -/
def consensusDay (env : Env) (st : Impl) : Outcome :=
  return_sendRequest env "consensus_current_day" (.object []) st

/-- The member `Commands::consensusDayInfo`. -/
def consensusDayInfo (env : Env) (day_number : Nat) (st : Impl) : Outcome :=
  let params := Json.object [("day_number", .number_unsigned day_number)]
  return_sendRequest env "consensus_day_info" params st

/-- The member `Commands::submitVote`. -/
def submitVote (env : Env) (validator_address proposal_id : String) (vote : Bool)
    (st : Impl) : Outcome :=
  match validateAddress validator_address with
  | .error e => (.error e, st)
  | .ok _ =>
    let params := Json.object [("validator", .string validator_address),
      ("proposal_id", .string proposal_id), ("vote", .boolean vote)]
    return_sendRequest env "consensus_submit_vote" params st

/-- The member `Commands::parseAmount`. -/
def parseAmount (amount_str : String) : Except Exception Nat :=
  match stoull amount_str with
  | .ok v => .ok v
  | .error _ => .error (.invalid_argument ("Invalid amount format: " ++ amount_str))

/-! ## The command line (etrcpp.cpp)

What `executeCommand` writes is kept as the lines sent to `std::cout` and to
`std::cerr`; every `<< std::endl` ends one line. -/

/-- The lines written to the two output streams. -/
structure Console where
  cout : List String
  cerr : List String
  deriving DecidableEq, Repr

/-- The function `printResponse(response, pretty)`.  The text of the result is
computed before anything is written, so an exception of `dump` leaves both
streams untouched. -/
def printResponse (env : Env) (response : RPCResponse) (pretty : Bool) :
    Except Exception Console :=
  if response.success then
    if pretty then
      match env.dump_pretty response.result with
      | .error e => .error e
      | .ok text => .ok { cout := [text], cerr := [] }
    else
      match env.dump response.result with
      | .error e => .error e
      | .ok text => .ok { cout := [text], cerr := [] }
  else
    .ok { cout := [],
          cerr := ["Error [" ++ to_string response.error_code ++ "]: " ++ response.error_message] }

/-- The element `args[i]` of the argument vector (used only below its size). -/
def arg (args : List String) (i : Nat) : String :=
  args.getD i ""

/-- How the command selection inside the `try` block of `executeCommand` ends:
with an early `return 1` after a usage message on `std::cerr`, or with the
outcome of the `Commands` operation (an exception thrown while its arguments
are evaluated counts as thrown by it) and the client state. -/
inductive Dispatched where
  | usage (lines : List String)
  | ran (outcome : Outcome)

/-- Evaluate `std::stoull(text)` as the argument of an operation: the operation
`op` runs with the number, or the exception of `std::stoull` is the outcome. -/
def with_stoull (text : String) (st : Impl) (op : Nat → Outcome) : Outcome :=
  match stoull text with
  | .error e => (.error e, st)
  | .ok v => op v

/-- The last part of the command selection of `executeCommand`: the consensus
commands, and the message for an unknown command. -/
def dispatch_consensus (env : Env) (args : List String) (st : Impl) : Dispatched :=
  let command := arg args 0
  if command == "consensusday" then
    .ran (consensusDay env st)
  else if command == "consensusdayinfo" then
    if args.length < 2 then
      .usage ["Error: consensusdayinfo requires day number"]
    else
      .ran (with_stoull (arg args 1) st fun day_number => consensusDayInfo env day_number st)
  else if command == "vote" then
    if args.length < 4 then
      .usage ["Error: vote requires validator, proposal, and yes/no"]
    else
      let vote := arg args 3 == "yes" || arg args 3 == "true" || arg args 3 == "1"
      .ran (submitVote env (arg args 1) (arg args 2) vote st)
  else
    .usage ["Error: Unknown command: " ++ command, "Use -h for help."]

/-- The command selection from the transaction commands on. -/
def dispatch_transaction (env : Env) (args : List String) (st : Impl) : Dispatched :=
  let command := arg args 0
  if command == "send" then
    if args.length < 4 then
      .usage ["Error: send requires from, to, and amount"]
    else if args.length > 4 then
      .ran (with_stoull (arg args 4) st fun fee =>
        with_stoull (arg args 3) st fun amount =>
          sendTransaction env (arg args 1) (arg args 2) amount fee st)
    else
      .ran (with_stoull (arg args 3) st fun amount =>
        sendTransaction env (arg args 1) (arg args 2) amount 1000 st)
  else if command == "sendraw" then
    if args.length < 2 then
      .usage ["Error: sendraw requires raw transaction hex"]
    else
      .ran (sendRawTransaction env (arg args 1) st)
  else
    dispatch_consensus env args st

/-- The command selection from the query commands on. -/
def dispatch_query (env : Env) (args : List String) (st : Impl) : Dispatched :=
  let command := arg args 0
  if command == "balance" then
    if args.length < 2 then
      .usage ["Error: balance requires address"]
    else
      .ran (queryBalance env (arg args 1) st)
  else if command == "block" then
    if args.length < 2 then
      .usage ["Error: block requires height or hash"]
    else
      .ran (queryBlock env (arg args 1) st)
  else if command == "transaction" then
    if args.length < 2 then
      .usage ["Error: transaction requires hash"]
    else
      .ran (queryTransaction env (arg args 1) st)
  else if command == "blockchaininfo" then
    .ran (getBlockchainInfo env st)
  else if command == "networkinfo" then
    .ran (getNetworkInfo env st)
  else
    dispatch_transaction env args st

/-- The command selection from the stake commands on. -/
def dispatch_stake (env : Env) (args : List String) (st : Impl) : Dispatched :=
  let command := arg args 0
  if command == "stake" then
    if args.length < 3 then
      .usage ["Error: stake requires address and amount"]
    else
      .ran (with_stoull (arg args 2) st fun amount => stakeTokens env (arg args 1) amount st)
  else if command == "unstake" then
    if args.length < 2 then
      .usage ["Error: unstake requires address"]
    else if args.length > 2 then
      .ran (with_stoull (arg args 2) st fun amount => unstakeTokens env (arg args 1) amount st)
    else
      .ran (unstakeTokens env (arg args 1) 0 st)
  else if command == "stakeinfo" then
    if args.length < 2 then
      .usage ["Error: stakeinfo requires address"]
    else
      .ran (stakeInfo env (arg args 1) st)
  else if command == "validators" then
    .ran (listValidators env st)
  else
    dispatch_query env args st

/-- The command selection of `executeCommand`, for a non-empty `args`: one chain
of comparisons of `args[0]`, split here at the section comments of the source
(account, stake, query, transaction and consensus commands). -/
def dispatch (env : Env) (args : List String) (st : Impl) : Dispatched :=
  let command := arg args 0
  if command == "account" then
    if args.length < 2 then
      .usage ["Error: account command requires subcommand"]
    else
      let subcmd := arg args 1
      if subcmd == "create" then
        let name := if args.length > 2 then arg args 2 else ""
        .ran (accountCreate env name st)
      else if subcmd == "list" then
        .ran (accountList env st)
      else if subcmd == "info" then
        if args.length < 3 then
          .usage ["Error: account info requires address"]
        else
          .ran (accountInfo env (arg args 2) st)
      else if subcmd == "import" then
        if args.length < 3 then
          .usage ["Error: account import requires private key"]
        else
          let name := if args.length > 3 then arg args 3 else ""
          .ran (accountImport env (arg args 2) name st)
      else
        .usage ["Error: Unknown account subcommand: " ++ subcmd]
  else
    dispatch_stake env args st

/-- What one run of `executeCommand` leaves behind: the value returned, the
lines written and the client state. -/
structure Run where
  exit_code : Int
  cout : List String
  cerr : List String
  client : Impl
  deriving Repr

/-- The end of `executeCommand` after the command selection: print the response
and return 0 or 1, or report the exception caught. -/
def finish (env : Env) (outcome : Outcome) : Run :=
  match outcome with
  | (.error e, st) => { exit_code := 1, cout := [], cerr := ["Error: " ++ e.what], client := st }
  | (.ok response, st) =>
    match printResponse env response true with
    | .error e => { exit_code := 1, cout := [], cerr := ["Error: " ++ e.what], client := st }
    | .ok console =>
      { exit_code := if response.success then 0 else 1, cout := console.cout,
        cerr := console.cerr, client := st }

/-- The function `executeCommand(commands, args)`, `commands` being the
operations over the client state `st`. -/
def executeCommand (env : Env) (args : List String) (st : Impl) : Run :=
  if args.length == 0 then
    { exit_code := 1, cout := [], cerr := ["Error: No command specified. Use -h for help."],
      client := st }
  else
    match dispatch env args st with
    | .usage lines => { exit_code := 1, cout := [], cerr := lines, client := st }
    | .ran outcome => finish env outcome

/-! ## Vocabulary of the specification -/

/-- The string `s` starts with the string `p`. -/
def starts_with (s p : String) : Prop :=
  p.data <+: s.data

instance (s p : String) : Decidable (starts_with s p) :=
  inferInstanceAs (Decidable (p.data <+: s.data))

/-- A hexadecimal digit: `0-9`, `a-f` or `A-F`. -/
def is_hex_digit (c : Char) : Prop :=
  ('0' ≤ c ∧ c ≤ '9') ∨ ('a' ≤ c ∧ c ≤ 'f') ∨ ('A' ≤ c ∧ c ≤ 'F')

instance : DecidablePred is_hex_digit :=
  fun c => inferInstanceAs (Decidable (('0' ≤ c ∧ c ≤ '9') ∨ ('a' ≤ c ∧ c ≤ 'f') ∨ ('A' ≤ c ∧ c ≤ 'F')))

/-- The integer that a JSON number holds, when it is an integer. -/
def Json.integer_value : Json → Option Int
  | .number_integer n => some n
  | .number_unsigned n => some (n : Int)
  | _ => none

/-- The call `sendRequest(method, params)` made on the client state `st`
receives an HTTP 200 response whose body parses to `body`: the handle exists,
the request serialises, libcurl reports `CURLE_OK` and status 200, and the parser
returns `body` for the bytes received. -/
def receives (env : Env) (method : String) (params : Json) (st : Impl) (body : Json) : Prop :=
  st.curl = true ∧ ∃ request_body,
    env.dump (sent_request method params st) = .ok request_body ∧
    (env.curl_easy_perform (during_call st) request_body).res = 0 ∧
    (env.curl_easy_perform (during_call st) request_body).http_code = 200 ∧
    env.parse (env.curl_easy_perform (during_call st) request_body).response_string = .ok body

/-- A world in which every request serialises, every exchange has the outcome
`x` and every body parses to `parsed`. -/
def Env.constant (x : CurlResult) (parsed : Except Exception Json) : Env :=
  { dump := fun _ => .ok "request", curl_easy_perform := fun _ _ => x,
    parse := fun _ => parsed, double_to_int := fun _ => 0,
    dump_pretty := fun _ => .ok "result text" }

/-- A world in which every exchange ends with HTTP 200 and the body `body`. -/
def Env.replying (body : Json) : Env :=
  Env.constant ⟨0, "No error", 200, "body"⟩ (.ok body)

/-- The client state right after `RPCClient("http://127.0.0.1:9944", 30)`. -/
def fresh_client : Impl :=
  { url := "http://127.0.0.1:9944", timeout := 30, username := "", password := "",
    curl := true, request_id := 0 }

/-- Every character of `s` is a decimal digit. -/
def all_digits (s : String) : Prop :=
  ∀ c ∈ s.data, '0' ≤ c ∧ c ≤ '9'

instance (s : String) : Decidable (all_digits s) :=
  inferInstanceAs (Decidable (∀ c ∈ s.data, '0' ≤ c ∧ c ≤ '9'))

/-- The integer that a string of decimal digits denotes. -/
def decimal_value (s : String) : Nat :=
  Nat.ofDigits 10 ((s.data.map digit_value).reverse)


/-- The id stored in a request. -/
def request_id_of (request : Json) : Option Nat :=
  match request.find "id" with
  | some (.number_unsigned n) => some n
  | _ => none

/-- Consecutive calls of `sendRequest` on one client, each given by its method
and parameters: the requests that the calls build, in order. -/
def sent_requests (env : Env) : List (String × Json) → Impl → List Json
  | [], _ => []
  | call :: rest, st =>
    sent_request call.1 call.2 st :: sent_requests env rest (sendRequest env call.1 call.2 st).2

/-- Exactly one variant of the response is populated: a success carries no error
message and the code 0, a failure carries no result payload. -/
def one_variant (r : RPCResponse) : Prop :=
  (r.success = true → r.error_message = "" ∧ r.error_code = 0) ∧
    (r.success = false → r.result = .null)

/-- The line "Error [<code>]: <message>". -/
def error_line (code : Int) (message : String) : String :=
  "Error [" ++ to_string code ++ "]: " ++ message

/-! ## Address validation -/

theorem substr_zero_eq_iff (s p : String) (n : Nat) :
    substr s 0 n = p ↔ s.data.take n = p.data := by
  cases s with
  | mk l =>
    cases p with
    | mk q => simp [substr, String.ext_iff]

theorem take_two_eq_iff (l : List Char) (a b : Char) :
    l.take 2 = [a, b] ↔ [a, b] <+: l := by
  match l with
  | [] => simp
  | [x] => simp
  | x :: y :: t => simp [eq_comm]

theorem take_three_eq_iff (l : List Char) (a b c : Char) :
    l.take 3 = [a, b, c] ↔ [a, b, c] <+: l := by
  match l with
  | [] => simp
  | [x] => simp
  | [x, y] => simp
  | x :: y :: z :: t => simp [eq_comm]

theorem substr_0x_iff (s : String) : substr s 0 2 = "0x" ↔ starts_with s "0x" := by
  rw [substr_zero_eq_iff]
  exact take_two_eq_iff s.data '0' 'x'

theorem substr_etr_iff (s : String) : substr s 0 3 = "etr" ↔ starts_with s "etr" := by
  rw [substr_zero_eq_iff]
  exact take_three_eq_iff s.data 'e' 't' 'r'

theorem matchCount_eq_some_nil (a : RegexAtom) (n : Nat) (s : List Char) :
    matchCount a n s = some [] ↔ s.length = n ∧ ∀ c ∈ s, a.accepts c = true := by
  induction n generalizing s with
  | zero =>
    cases s <;> simp [matchCount]
  | succ n ih =>
    cases s with
    | nil => simp [matchCount]
    | cons c t =>
      by_cases hc : a.accepts c = true
      · simp [matchCount, hc, ih]
      · simp [matchCount, hc]

theorem matchCount_rest_isEmpty (a : RegexAtom) (n : Nat) (s : List Char) :
    (match matchCount a n s with
      | some rest => matchPieces [] rest
      | none => false) = true ↔ s.length = n ∧ ∀ c ∈ s, a.accepts c = true := by
  rw [← matchCount_eq_some_nil]
  cases h : matchCount a n s with
  | none => simp
  | some rest => cases rest <;> simp [matchPieces]

theorem hex_bracket_accepts (c : Char) :
    (RegexAtom.bracket [('0', '9'), ('a', 'f'), ('A', 'F')]).accepts c = true ↔ is_hex_digit c := by
  simp [RegexAtom.accepts, is_hex_digit]

theorem regex_match_hex_regex (rest : List Char) :
    matchPieces hex_regex ('0' :: 'x' :: rest) = true ↔
      rest.length = 40 ∧ ∀ c ∈ rest, is_hex_digit c := by
  have h : matchPieces hex_regex ('0' :: 'x' :: rest) =
      (match matchCount (.bracket [('0', '9'), ('a', 'f'), ('A', 'F')]) 40 rest with
        | some r => matchPieces [] r
        | none => false) := by
    simp [hex_regex, matchPieces, matchCount, RegexAtom.accepts]
  rw [h, matchCount_rest_isEmpty]
  simp only [hex_bracket_accepts]

/-- C1: for every address that starts with "0x", validateAddress accepts it if
and only if its length is exactly 42 and each character after the "0x" is a
hexadecimal digit (0-9, a-f, A-F). -/
theorem validateAddress_0x_iff (address : String) (h : starts_with address "0x") :
    validateAddress address = .ok () ↔
      address.length = 42 ∧ ∀ c ∈ address.data.drop 2, is_hex_digit c := by
  have h2 : substr address 0 2 = "0x" := (substr_0x_iff address).mpr h
  obtain ⟨rest, hrest⟩ := h
  have hrest : address.data = '0' :: 'x' :: rest := hrest.symm
  have hlen : address.length = rest.length + 2 := by
    show address.data.length = _
    rw [hrest]; rfl
  have hm : regex_match address hex_regex = true ↔
      rest.length = 40 ∧ ∀ c ∈ rest, is_hex_digit c := by
    unfold regex_match
    rw [hrest]
    exact regex_match_hex_regex rest
  have hdrop : address.data.drop 2 = rest := by rw [hrest]; rfl
  rw [hdrop]
  by_cases h42 : address.length = 42
  · have h40 : rest.length = 40 := by omega
    by_cases hr : regex_match address hex_regex = true
    · have hall := (hm.mp hr).2
      simp only [validateAddress, h2, h42, hr]
      simpa using hall
    · have hn : ¬ ∀ c ∈ rest, is_hex_digit c := fun hall => hr (hm.mpr ⟨h40, hall⟩)
      simp [validateAddress, h2, h42, hr, hn]
  · have h0 : address.length ≠ 0 := by omega
    simp [validateAddress, h2, h42, h0]

/-- The examples of C1: the 42-character address is accepted and "0x123" is
rejected. -/
theorem validateAddress_0x_iff_witness :
    validateAddress "0x1234567890123456789012345678901234567890" = .ok () ∧
      validateAddress "0x123" ≠ .ok () :=
  ⟨(validateAddress_0x_iff "0x1234567890123456789012345678901234567890" (by decide)).mpr
      ⟨rfl, by decide⟩,
    fun h => absurd ((validateAddress_0x_iff "0x123" (by decide)).mp h).1 (by decide)⟩

/-- C2: for every address that does not start with "0x", validateAddress accepts
it if and only if it starts with "etr" and its length is at least 10. -/
theorem validateAddress_not_0x_iff (address : String) (h : ¬ starts_with address "0x") :
    validateAddress address = .ok () ↔ starts_with address "etr" ∧ 10 ≤ address.length := by
  have h2 : ¬ substr address 0 2 = "0x" := fun e => h ((substr_0x_iff address).mp e)
  by_cases h3 : substr address 0 3 = "etr"
  · have hs : starts_with address "etr" := (substr_etr_iff address).mp h3
    by_cases h10 : address.length < 10
    · have : ¬ 10 ≤ address.length := by omega
      by_cases h0 : address.length = 0 <;> simp [validateAddress, h2, h3, h10, h0, this]
    · have : 10 ≤ address.length := by omega
      have h0 : address.length ≠ 0 := by omega
      simp [validateAddress, h2, h3, h10, h0, hs, this]
  · have hs : ¬ starts_with address "etr" := fun e => h3 ((substr_etr_iff address).mpr e)
    by_cases h0 : address.length = 0 <;> simp [validateAddress, h2, h3, h0, hs]

/-- The examples of C2: "etr1234567" (10 characters) is accepted; "etr12345"
(8 characters), the empty string and an address with another start are
rejected. -/
theorem validateAddress_not_0x_iff_witness :
    validateAddress "etr1234567" = .ok () ∧ validateAddress "etr12345" ≠ .ok () ∧
      validateAddress "" ≠ .ok () ∧ validateAddress "abc1234567890" ≠ .ok () :=
  ⟨(validateAddress_not_0x_iff "etr1234567" (by decide)).mpr ⟨(by decide), by decide⟩,
    fun h => absurd ((validateAddress_not_0x_iff "etr12345" (by decide)).mp h).2 (by decide),
    fun h => absurd ((validateAddress_not_0x_iff "" (by decide)).mp h).1 (by decide),
    fun h => absurd ((validateAddress_not_0x_iff "abc1234567890" (by decide)).mp h).1 (by decide)⟩

/-! ## Classification of the response by `sendRequest` -/

theorem sendRequest_receive_of_receives (env : Env) (method : String) (params : Json)
    (st : Impl) (body : Json) (h : receives env method params st body) :
    sendRequest_receive env (sent_request method params st) (during_call st) = .ok body := by
  obtain ⟨hcurl, request_body, hdump, hres, hcode, hparse⟩ := h
  have hc : (during_call st).curl = true := hcurl
  simp [sendRequest_receive, hdump, makeHTTPRequest, hc, hres, hcode, parseResponse, hparse]

theorem sendRequest_of_receives (env : Env) (method : String) (params : Json)
    (st : Impl) (body : Json) (h : receives env method params st body) :
    sendRequest env method params st =
      match sendRequest_classify env body with
      | .error e => (RPCResponse.ofError false ("Request failed: " ++ e.what) (-1), during_call st)
      | .ok r => (r, during_call st) := by
  have hr := sendRequest_receive_of_receives env method params st body h
  simp only [sendRequest, hr]

theorem static_cast_int_of_range (c : Int) (hlo : -2 ^ 31 ≤ c) (hhi : c < 2 ^ 31) :
    static_cast_int c = c := by
  unfold static_cast_int
  omega

theorem find_object_of_some (j : Json) (key : String) (v : Json) (h : j.find key = some v) :
    ∃ members, j = .object members := by
  cases j <;> simp [Json.find] at h
  exact ⟨_, rfl⟩

/-- C3 (amended): when the parsed HTTP-200 body has an "error" member that is an
object with a string "message" and an integer "code" in the range of a 32-bit
int, sendRequest returns the failure carrying exactly that message and code. -/
theorem sendRequest_error_member (env : Env) (method : String) (params : Json) (st : Impl)
    (body error code : Json) (m : String) (c : Int)
    (hbody : receives env method params st body)
    (herror : body.find "error" = some error)
    (hm : error.find "message" = some (.string m))
    (hcode : error.find "code" = some code) (hc : code.integer_value = some c)
    (hlo : -2 ^ 31 ≤ c) (hhi : c < 2 ^ 31) :
    (sendRequest env method params st).1 =
      { success := false, result := .null, error_message := m, error_code := c } := by
  rw [sendRequest_of_receives env method params st body hbody]
  obtain ⟨members, rfl⟩ := find_object_of_some body "error" error herror
  obtain ⟨emembers, rfl⟩ := find_object_of_some error "message" _ hm
  have hcast : ∀ n : Int, n = c → static_cast_int n = c := fun n hn => by
    rw [hn]; exact static_cast_int_of_range c hlo hhi
  cases code <;> simp [Json.integer_value] at hc
  · simp [sendRequest_classify, Json.contains, Json.index, herror, Json.value_string, hm,
      Json.value_int, hcode, hcast _ hc, RPCResponse.ofError]
  · simp [sendRequest_classify, Json.contains, Json.index, herror, Json.value_string, hm,
      Json.value_int, hcode, hcast _ hc, RPCResponse.ofError]

/-- An instance of C3 (amended): the body {"error": {"message": "boom", "code": -32601}}. -/
theorem sendRequest_error_member_witness :
    (sendRequest
      (Env.replying (.object [("error", .object [("message", .string "boom"),
        ("code", .number_integer (-32601))])]))
      "account_list" (.object []) fresh_client).1 =
      { success := false, result := .null, error_message := "boom", error_code := -32601 } :=
  sendRequest_error_member _ "account_list" (.object []) fresh_client _
    (.object [("message", .string "boom"), ("code", .number_integer (-32601))])
    (.number_integer (-32601)) "boom" (-32601)
    ⟨rfl, "request", rfl, rfl, rfl, rfl⟩ rfl rfl rfl rfl (by decide) (by decide)

/-- C3 as stated fails: the body {"error": {"message": "boom", "code": 4294967297}}
is received with HTTP 200 and has the numeric code 4294967297 in its "error"
member, but the failure returned carries the code 1. -/
theorem sendRequest_error_code_not_verbatim :
    receives
        (Env.replying (.object [("error", .object [("message", .string "boom"),
          ("code", .number_unsigned 4294967297)])]))
        "account_list" (.object []) fresh_client
        (.object [("error", .object [("message", .string "boom"),
          ("code", .number_unsigned 4294967297)])]) ∧
      (sendRequest
        (Env.replying (.object [("error", .object [("message", .string "boom"),
          ("code", .number_unsigned 4294967297)])]))
        "account_list" (.object []) fresh_client).1.error_code = 1 ∧
      (sendRequest
        (Env.replying (.object [("error", .object [("message", .string "boom"),
          ("code", .number_unsigned 4294967297)])]))
        "account_list" (.object []) fresh_client).1.error_code ≠ 4294967297 :=
  ⟨⟨rfl, "request", rfl, rfl, rfl, rfl⟩, by decide, by decide⟩

theorem contains_eq_false_iff (j : Json) (key : String) :
    j.contains key = false ↔ j.find key = none := by
  simp [Json.contains]

/-- C4: when the parsed HTTP-200 body has no "error" member, sendRequest returns
the success carrying the "result" member if there is one, and otherwise the
failure "Invalid RPC response" with code -1. -/
theorem sendRequest_without_error_member (env : Env) (method : String) (params : Json)
    (st : Impl) (body : Json)
    (hbody : receives env method params st body)
    (hno : body.contains "error" = false) :
    (∀ r, body.find "result" = some r →
      (sendRequest env method params st).1 =
        { success := true, result := r, error_message := "", error_code := 0 }) ∧
    (body.contains "result" = false →
      (sendRequest env method params st).1 =
        { success := false, result := .null, error_message := "Invalid RPC response",
          error_code := -1 }) := by
  rw [sendRequest_of_receives env method params st body hbody]
  constructor
  · intro r hr
    obtain ⟨members, rfl⟩ := find_object_of_some body "result" r hr
    have hno1 := (contains_eq_false_iff _ _).mp hno
    simp [sendRequest_classify, Json.contains, hno1, Json.index, hr, RPCResponse.ofResult]
  · intro hres
    simp [sendRequest_classify, hno, hres, RPCResponse.ofError]

/-- Two instances of C4: the body {"result": 42} gives the success with payload
42, and the body {"id": 1} gives the failure "Invalid RPC response". -/
theorem sendRequest_without_error_member_witness :
    (sendRequest (Env.replying (.object [("result", .number_unsigned 42)]))
        "blockchain_info" (.object []) fresh_client).1 =
      { success := true, result := .number_unsigned 42, error_message := "", error_code := 0 } ∧
    (sendRequest (Env.replying (.object [("id", .number_unsigned 1)]))
        "blockchain_info" (.object []) fresh_client).1 =
      { success := false, result := .null, error_message := "Invalid RPC response",
        error_code := -1 } :=
  ⟨(sendRequest_without_error_member (Env.replying (.object [("result", .number_unsigned 42)]))
      "blockchain_info" (.object []) fresh_client _
      ⟨rfl, "request", rfl, rfl, rfl, rfl⟩ rfl).1 _ rfl,
    (sendRequest_without_error_member (Env.replying (.object [("id", .number_unsigned 1)]))
      "blockchain_info" (.object []) fresh_client _
      ⟨rfl, "request", rfl, rfl, rfl, rfl⟩ rfl).2 rfl⟩

/-! ## Transport failures -/

theorem sendRequest_of_receive_error (env : Env) (method : String) (params : Json)
    (st : Impl) (e : Exception)
    (h : sendRequest_receive env (sent_request method params st) (during_call st) = .error e) :
    sendRequest env method params st =
      (RPCResponse.ofError false ("Request failed: " ++ e.what) (-1), during_call st) := by
  simp only [sendRequest, h]

theorem request_failed_ne_empty (w : String) : "Request failed: " ++ w ≠ "" := by
  intro h
  have := congrArg String.length h
  simp at this
  exact absurd this.1 (by decide)

/-- The three transport failures of one exchange and the response each one
gives. -/
theorem sendRequest_transport_failure_cases (env : Env) (method : String) (params : Json)
    (st : Impl) (request_body : String)
    (hcurl : st.curl = true)
    (hdump : env.dump (sent_request method params st) = .ok request_body) :
    (∀ x, x = env.curl_easy_perform (during_call st) request_body → x.res ≠ 0 →
      (sendRequest env method params st).1 =
        { success := false, result := .null,
          error_message := "Request failed: CURL request failed: " ++ x.strerror,
          error_code := -1 }) ∧
    (∀ x, x = env.curl_easy_perform (during_call st) request_body → x.res = 0 →
      x.http_code ≠ 200 →
      (sendRequest env method params st).1 =
        { success := false, result := .null,
          error_message := "Request failed: HTTP error: " ++ to_string x.http_code,
          error_code := -1 }) ∧
    (∀ x e, x = env.curl_easy_perform (during_call st) request_body → x.res = 0 →
      x.http_code = 200 → env.parse x.response_string = .error e →
      ∃ detail, detail ≠ "" ∧ (sendRequest env method params st).1 =
        { success := false, result := .null, error_message := detail, error_code := -1 }) := by
  have hc : (during_call st).curl = true := hcurl
  refine ⟨?_, ?_, ?_⟩
  · intro x hx hres
    subst hx
    rw [sendRequest_of_receive_error env method params st
      (.runtime_error ("CURL request failed: " ++
        (env.curl_easy_perform (during_call st) request_body).strerror))]
    · simp only [RPCResponse.ofError, Exception.what]
      rw [← String.append_assoc]
      rfl
    · simp [sendRequest_receive, hdump, makeHTTPRequest, hc, hres]
  · intro x hx hres hcode
    subst hx
    rw [sendRequest_of_receive_error env method params st
      (.runtime_error ("HTTP error: " ++
        to_string (env.curl_easy_perform (during_call st) request_body).http_code))]
    · simp only [RPCResponse.ofError, Exception.what]
      rw [← String.append_assoc]
      rfl
    · simp [sendRequest_receive, hdump, makeHTTPRequest, hc, hres, hcode]
  · intro x e hx hres hcode hparse
    subst hx
    have hrecv : ∃ e1, sendRequest_receive env (sent_request method params st) (during_call st)
        = .error e1 := by
      cases e <;>
        simp [sendRequest_receive, hdump, makeHTTPRequest, hc, hres, hcode, parseResponse, hparse]
    obtain ⟨e1, he1⟩ := hrecv
    rw [sendRequest_of_receive_error env method params st e1 he1]
    exact ⟨"Request failed: " ++ e1.what, request_failed_ne_empty _, rfl⟩

/-- C5: a call whose exchange fails at the transport level (libcurl reports an
error, or the HTTP status is not 200, or the body does not parse) returns, as a
value, the failure with code -1 and a non-empty message; for a status s other
than 200 the message is "Request failed: HTTP error: " followed by the decimal
text of s. -/
theorem sendRequest_transport_failure (env : Env) (method : String) (params : Json)
    (st : Impl) (request_body : String) (x : CurlResult)
    (hcurl : st.curl = true)
    (hdump : env.dump (sent_request method params st) = .ok request_body)
    (hx : x = env.curl_easy_perform (during_call st) request_body)
    (hfail : x.res ≠ 0 ∨ x.http_code ≠ 200 ∨ ∃ e, env.parse x.response_string = .error e) :
    (sendRequest env method params st).1.success = false ∧
    (sendRequest env method params st).1.error_code = -1 ∧
    (sendRequest env method params st).1.error_message ≠ "" ∧
    (sendRequest env method params st).1.result = .null ∧
    (x.res = 0 → x.http_code ≠ 200 →
      (sendRequest env method params st).1.error_message =
        "Request failed: HTTP error: " ++ to_string x.http_code) := by
  obtain ⟨h1, h2, h3⟩ :=
    sendRequest_transport_failure_cases env method params st request_body hcurl hdump
  have hstatus : x.res = 0 → x.http_code ≠ 200 →
      (sendRequest env method params st).1.error_message =
        "Request failed: HTTP error: " ++ to_string x.http_code := by
    intro hres hcode
    rw [h2 x hx hres hcode]
  by_cases hres : x.res = 0
  · by_cases hcode : x.http_code = 200
    · have hparse : ∃ e, env.parse x.response_string = .error e := by
        rcases hfail with h | h | h
        · exact absurd hres h
        · exact absurd hcode h
        · exact h
      obtain ⟨e, he⟩ := hparse
      obtain ⟨detail, hd, hr⟩ := h3 x e hx hres hcode he
      exact ⟨by rw [hr], by rw [hr], by rw [hr]; exact hd, by rw [hr],
        fun _ h200 => absurd hcode h200⟩
    · refine ⟨?_, ?_, ?_, ?_, hstatus⟩
      · rw [h2 x hx hres hcode]
      · rw [h2 x hx hres hcode]
      · rw [h2 x hx hres hcode]
        simp only
        rw [show "Request failed: HTTP error: " ++ to_string x.http_code =
          "Request failed: " ++ ("HTTP error: " ++ to_string x.http_code) by
            rw [← String.append_assoc]; rfl]
        exact request_failed_ne_empty _
      · rw [h2 x hx hres hcode]
  · refine ⟨?_, ?_, ?_, ?_, hstatus⟩
    · rw [h1 x hx hres]
    · rw [h1 x hx hres]
    · rw [h1 x hx hres]
      simp only
      rw [show "Request failed: CURL request failed: " ++ x.strerror =
        "Request failed: " ++ ("CURL request failed: " ++ x.strerror) by
          rw [← String.append_assoc]; rfl]
      exact request_failed_ne_empty _
    · rw [h1 x hx hres]

/-- An instance of C5: an exchange that ends with HTTP status 500. -/
theorem sendRequest_transport_failure_witness :
    (sendRequest (Env.constant ⟨0, "No error", 500, "Internal Server Error"⟩ (.ok .null))
        "network_info" (.object []) fresh_client).1.success = false ∧
    (sendRequest (Env.constant ⟨0, "No error", 500, "Internal Server Error"⟩ (.ok .null))
        "network_info" (.object []) fresh_client).1.error_code = -1 ∧
    (sendRequest (Env.constant ⟨0, "No error", 500, "Internal Server Error"⟩ (.ok .null))
        "network_info" (.object []) fresh_client).1.error_message =
      "Request failed: HTTP error: 500" :=
  have h := sendRequest_transport_failure
    (Env.constant ⟨0, "No error", 500, "Internal Server Error"⟩ (.ok .null))
    "network_info" (.object []) fresh_client "request"
    ⟨0, "No error", 500, "Internal Server Error"⟩ rfl rfl rfl (Or.inr (Or.inl (by decide)))
  ⟨h.1, h.2.1, (h.2.2.2.2 rfl (by decide)).trans (by decide)⟩

/-! ## Validation before the call -/

theorem validateAddress_error_kind (address : String) (e : Exception)
    (h : validateAddress address = .error e) : ∃ w, e = .invalid_argument w := by
  unfold validateAddress at h
  split_ifs at h <;> exact ⟨_, (Except.error.inj h).symm⟩

theorem validateAddress_cases (address : String) :
    validateAddress address = .ok () ∨ ∃ w, validateAddress address = .error (.invalid_argument w) := by
  cases h : validateAddress address with
  | ok u => exact Or.inl rfl
  | error e =>
    obtain ⟨w, rfl⟩ := validateAddress_error_kind address e h
    exact Or.inr ⟨w, rfl⟩

/-- C6: for an address that validateAddress rejects, every operation that takes
an address throws the std::invalid_argument of the validation and leaves the
client state, and with it the request counter, unchanged: no call of sendRequest
is made, whatever the other arguments and the world are. -/
theorem rejected_address_no_call (env : Env) (address : String) (e : Exception) (st : Impl)
    (h : validateAddress address = .error e) :
    (∃ w, e = .invalid_argument w) ∧
      accountInfo env address st = (.error e, st) ∧
      (∀ amount, stakeTokens env address amount st = (.error e, st)) ∧
      (∀ amount, unstakeTokens env address amount st = (.error e, st)) ∧
      stakeInfo env address st = (.error e, st) ∧
      queryBalance env address st = (.error e, st) ∧
      (∀ proposal_id vote, submitVote env address proposal_id vote st = (.error e, st)) ∧
      (∀ dst amount fee, sendTransaction env address dst amount fee st = (.error e, st)) ∧
      (∀ src amount fee, ∃ w,
        sendTransaction env src address amount fee st = (.error (.invalid_argument w), st)) := by
  obtain ⟨w, hw⟩ := validateAddress_error_kind address e h
  refine ⟨⟨w, hw⟩, ?_, ?_, ?_, ?_, ?_, ?_, ?_, ?_⟩
  · simp [accountInfo, h]
  · intro amount; simp [stakeTokens, h]
  · intro amount; simp [unstakeTokens, h]
  · simp [stakeInfo, h]
  · simp [queryBalance, h]
  · intro proposal_id vote; simp [submitVote, h]
  · intro dst amount fee; simp [sendTransaction, h]
  · intro src amount fee
    rcases validateAddress_cases src with hs | ⟨w1, hs⟩
    · exact ⟨w, by simp [sendTransaction, hs, h, hw]⟩
    · exact ⟨w1, by simp [sendTransaction, hs]⟩

/-- An instance of C6: the address "0x123" on a client whose counter is 0. -/
theorem rejected_address_no_call_witness :
    accountInfo (Env.replying .null) "0x123" fresh_client =
        (.error (.invalid_argument "Invalid Ethereum-style address length"), fresh_client) ∧
      sendTransaction (Env.replying .null) "0x123" "etr1234567" 5 1000 fresh_client =
        (.error (.invalid_argument "Invalid Ethereum-style address length"), fresh_client) :=
  have h := rejected_address_no_call (Env.replying .null) "0x123"
    (.invalid_argument "Invalid Ethereum-style address length") fresh_client (by decide)
  ⟨h.2.1, h.2.2.2.2.2.2.2.1 "etr1234567" 5 1000⟩

/-- C8: for valid addresses, stakeTokens with amount 0 and sendTransaction with
amount 0 (and any fee) return the input-error failure with code -1 and the
message that the amount must be greater than 0, and leave the client state
unchanged: no call of sendRequest is made. -/
theorem zero_amount_no_call (env : Env) (st : Impl) :
    (∀ a, validateAddress a = .ok () →
      stakeTokens env a 0 st =
        (.ok { success := false, result := .null,
               error_message := "Invalid stake amount: must be greater than 0",
               error_code := -1 }, st)) ∧
    (∀ src dst fee, validateAddress src = .ok () → validateAddress dst = .ok () →
      sendTransaction env src dst 0 fee st =
        (.ok { success := false, result := .null,
               error_message := "Invalid amount: must be greater than 0",
               error_code := -1 }, st)) := by
  constructor
  · intro a ha
    simp [stakeTokens, ha, RPCResponse.ofError]
  · intro src dst fee hs hd
    simp [sendTransaction, hs, hd, RPCResponse.ofError]

/-- An instance of C8 with the addresses "etr1234567" and
"0x1234567890123456789012345678901234567890". -/
theorem zero_amount_no_call_witness :
    stakeTokens (Env.replying .null) "etr1234567" 0 fresh_client =
      (.ok { success := false, result := .null,
             error_message := "Invalid stake amount: must be greater than 0",
             error_code := -1 }, fresh_client) ∧
    sendTransaction (Env.replying .null) "etr1234567"
        "0x1234567890123456789012345678901234567890" 0 1000 fresh_client =
      (.ok { success := false, result := .null,
             error_message := "Invalid amount: must be greater than 0",
             error_code := -1 }, fresh_client) :=
  ⟨(zero_amount_no_call (Env.replying .null) fresh_client).1 "etr1234567" (by decide),
    (zero_amount_no_call (Env.replying .null) fresh_client).2 "etr1234567"
      "0x1234567890123456789012345678901234567890" 1000 (by decide) (by decide)⟩

/-- C9: for a valid address a, unstakeTokens(a, 0) is exactly one call of
sendRequest with the method "unstake_tokens" and the parameters
{"address": a, "amount": 0}: it returns the response of that call and leaves the
client in the state after that call. -/
theorem unstakeTokens_zero_calls (env : Env) (a : String) (st : Impl)
    (h : validateAddress a = .ok ()) :
    unstakeTokens env a 0 st =
      (.ok (sendRequest env "unstake_tokens"
          (.object [("address", .string a), ("amount", .number_unsigned 0)]) st).1,
        (sendRequest env "unstake_tokens"
          (.object [("address", .string a), ("amount", .number_unsigned 0)]) st).2) ∧
    (unstakeTokens env a 0 st).2.request_id = next_request_id st := by
  constructor
  · simp [unstakeTokens, h, return_sendRequest]
  · simp only [unstakeTokens, h, return_sendRequest, sendRequest]
    split <;> (try split) <;> rfl

/-- An instance of C9: unstaking 0 from "etr1234567" against a node that answers
{"result": true}. -/
theorem unstakeTokens_zero_calls_witness :
    unstakeTokens (Env.replying (.object [("result", .boolean true)])) "etr1234567" 0
        fresh_client =
      (.ok { success := true, result := .boolean true, error_message := "", error_code := 0 },
        { fresh_client with request_id := 1 }) :=
  ((unstakeTokens_zero_calls (Env.replying (.object [("result", .boolean true)]))
    "etr1234567" fresh_client (by decide)).1).trans rfl

/-! ## `Commands::queryBlock` -/

theorem isdigit_iff (c : Char) : isdigit c = true ↔ '0' ≤ c ∧ c ≤ '9' := by
  simp [isdigit]

theorem isdigit_not_isspace (c : Char) (h : isdigit c = true) : isspace c = false := by
  rw [isdigit_iff] at h
  obtain ⟨h1, h2⟩ := h
  simp only [isspace, Bool.or_eq_false_iff, beq_eq_false_iff_ne, ne_eq]
  refine ⟨⟨⟨⟨⟨?_, ?_⟩, ?_⟩, ?_⟩, ?_⟩, ?_⟩ <;> intro hc <;> subst hc <;> revert h1 <;> decide

theorem foldl_digits (l : List Char) (a : Nat) :
    l.foldl (fun acc c => 10 * acc + digit_value c) a =
      a * 10 ^ l.length + Nat.ofDigits 10 ((l.map digit_value).reverse) := by
  induction l generalizing a with
  | nil => simp
  | cons c t ih =>
    simp only [List.foldl_cons, ih, List.map_cons, List.reverse_cons, Nat.ofDigits_append,
      List.length_cons, List.length_reverse, List.length_map, Nat.ofDigits_singleton]
    ring

theorem stoull_of_digits (s : String) (hne : s.data ≠ []) (hd : all_digits s) :
    stoull s = if decimal_value s ≥ 2 ^ 64 then .error (.out_of_range "stoull")
      else .ok (decimal_value s) := by
  have hall : ∀ c ∈ s.data, isdigit c = true := fun c hc => (isdigit_iff c).mpr (hd c hc)
  have h1 : s.data.takeWhile (fun c => c != Char.ofNat 0) = s.data := by
    rw [List.takeWhile_eq_self_iff]
    intro c hc
    have := (hd c hc).1
    simp only [bne_iff_ne, ne_eq]
    intro h0; subst h0; revert this; decide
  obtain ⟨c, t, hct⟩ := List.exists_cons_of_ne_nil hne
  have hc : isdigit c = true := hall c (by rw [hct]; simp)
  have hsp : isspace c = false := isdigit_not_isspace c hc
  have hminus : c ≠ '-' := by
    intro h0; subst h0; revert hc; decide
  have hplus : c ≠ '+' := by
    intro h0; subst h0; revert hc; decide
  have h2 : (s.data.dropWhile isspace) = s.data := by
    rw [hct]; simp [List.dropWhile, hsp]
  have h3 : s.data.takeWhile isdigit = s.data := by
    rw [List.takeWhile_eq_self_iff]; exact hall
  have hhead : s.data.head? = some c := by rw [hct]; rfl
  have hneg : (s.data.head? == some '-') = false := by simp [hhead, hminus]
  have hpos : (s.data.head? == some '+') = false := by simp [hhead, hplus]
  have hemp : s.data.isEmpty = false := by rw [hct]; rfl
  unfold stoull
  simp only [h1, h2, hpos, hneg, Bool.or_self, Bool.false_eq_true, if_false, h3, hemp,
    foldl_digits, Nat.zero_mul, Nat.zero_add]
  rfl


/-- C7 (amended): for a non-empty identifier of decimal digits whose value is
below 2^64, queryBlock is exactly one call of sendRequest with the method
"eth_getBlockByNumber" and the parameters {"block_height": n}, n being the
integer that the identifier denotes; for an identifier with a character that is
not a decimal digit it is exactly one call with the parameters
{"block_hash": identifier}. -/
theorem queryBlock_calls (env : Env) (identifier : String) (st : Impl) :
    (identifier.data ≠ [] → all_digits identifier → decimal_value identifier < 2 ^ 64 →
      queryBlock env identifier st =
        (.ok (sendRequest env "eth_getBlockByNumber"
            (.object [("block_height", .number_unsigned (decimal_value identifier))]) st).1,
          (sendRequest env "eth_getBlockByNumber"
            (.object [("block_height", .number_unsigned (decimal_value identifier))]) st).2)) ∧
    (¬ all_digits identifier →
      queryBlock env identifier st =
        (.ok (sendRequest env "eth_getBlockByNumber"
            (.object [("block_hash", .string identifier)]) st).1,
          (sendRequest env "eth_getBlockByNumber"
            (.object [("block_hash", .string identifier)]) st).2)) := by
  constructor
  · intro hne hd hlt
    have hall : identifier.data.all isdigit = true := by
      rw [List.all_eq_true]
      exact fun c hc => (isdigit_iff c).mpr (hd c hc)
    have hst := stoull_of_digits identifier hne hd
    rw [if_neg (by omega)] at hst
    simp [queryBlock, hall, hst, return_sendRequest]
  · intro hnd
    have hall : identifier.data.all isdigit = false := by
      rw [Bool.eq_false_iff]
      intro h
      rw [List.all_eq_true] at h
      exact hnd fun c hc => (isdigit_iff c).mp (h c hc)
    simp [queryBlock, hall, return_sendRequest]

/-- The examples of C7: "12345" is sent as the block height 12345 and "0xabc" as
a block hash. -/
theorem queryBlock_calls_witness :
    queryBlock (Env.replying .null) "12345" fresh_client =
        (.ok (sendRequest (Env.replying .null) "eth_getBlockByNumber"
            (.object [("block_height", .number_unsigned 12345)]) fresh_client).1,
          (sendRequest (Env.replying .null) "eth_getBlockByNumber"
            (.object [("block_height", .number_unsigned 12345)]) fresh_client).2) ∧
      queryBlock (Env.replying .null) "0xabc" fresh_client =
        (.ok (sendRequest (Env.replying .null) "eth_getBlockByNumber"
            (.object [("block_hash", .string "0xabc")]) fresh_client).1,
          (sendRequest (Env.replying .null) "eth_getBlockByNumber"
            (.object [("block_hash", .string "0xabc")]) fresh_client).2) :=
  ⟨(queryBlock_calls (Env.replying .null) "12345" fresh_client).1
      (by decide) (by decide) (by decide),
    (queryBlock_calls (Env.replying .null) "0xabc" fresh_client).2 (by decide)⟩

/-- C7 as stated fails: "18446744073709551616" consists of decimal digits and
denotes 2^64, but queryBlock makes no call with {"block_height": 2^64}: the
std::out_of_range of std::stoull escapes and the client state is unchanged.  (For
the empty identifier std::stoull throws std::invalid_argument.) -/
theorem queryBlock_height_out_of_range :
    all_digits "18446744073709551616" ∧
      decimal_value "18446744073709551616" = 18446744073709551616 ∧
      queryBlock (Env.replying .null) "18446744073709551616" fresh_client =
        (.error (.out_of_range "stoull"), fresh_client) ∧
      queryBlock (Env.replying .null) "" fresh_client =
        (.error (.invalid_argument "stoull"), fresh_client) ∧
      queryBlock (Env.replying .null) "18446744073709551616" fresh_client ≠
        (.ok (sendRequest (Env.replying .null) "eth_getBlockByNumber"
            (.object [("block_height", .number_unsigned 18446744073709551616)]) fresh_client).1,
          (sendRequest (Env.replying .null) "eth_getBlockByNumber"
            (.object [("block_height", .number_unsigned 18446744073709551616)])
            fresh_client).2) := by
  have h : queryBlock (Env.replying .null) "18446744073709551616" fresh_client =
      (.error (.out_of_range "stoull"), fresh_client) := by rfl
  refine ⟨by decide, by decide, h, rfl, ?_⟩
  rw [h]
  intro hc
  cases (Prod.mk.inj hc).1

/-! ## The request counter -/

theorem sendRequest_state (env : Env) (method : String) (params : Json) (st : Impl) :
    (sendRequest env method params st).2 = during_call st := by
  simp only [sendRequest]
  split <;> (try split) <;> rfl

theorem request_id_of_sent_request (method : String) (params : Json) (st : Impl) :
    request_id_of (sent_request method params st) = some (next_request_id st) := by
  rfl

theorem sent_requests_ids (env : Env) (calls : List (String × Json)) (st : Impl) :
    (sent_requests env calls st).map request_id_of =
      (List.range calls.length).map fun k => some ((st.request_id + k + 1) % 2 ^ 64) := by
  induction calls generalizing st with
  | nil => rfl
  | cons call rest ih =>
    simp only [sent_requests, List.map_cons, List.length_cons, List.range_succ_eq_map,
      request_id_of_sent_request, ih, sendRequest_state, List.map_map]
    refine congrArg₂ _ ?_ ?_
    · simp [next_request_id]
    · apply List.map_congr_left
      intro k _
      simp only [Function.comp, during_call, next_request_id]
      congr 1
      norm_num
      omega

/-- C10 (amended): on a freshly constructed client, as long as fewer than 2^64
calls are made, the n-th call of sendRequest builds a request whose id is n,
whatever the methods, the parameters and the outcomes of the calls are; so the
first id is 1, each id is the previous id plus 1, and the ids are pairwise
distinct. -/
theorem request_ids_count_up (env : Env) (u : String) (t : Int) (st : Impl)
    (calls : List (String × Json))
    (hfresh : Impl.init u t true = .ok st) (hlen : calls.length < 2 ^ 64) :
    (sent_requests env calls st).map request_id_of = (List.range' 1 calls.length).map some ∧
      ((sent_requests env calls st).map request_id_of).Nodup := by
  have h0 : st.request_id = 0 := by
    simp [Impl.init] at hfresh
    rw [← hfresh]
  have hids : (sent_requests env calls st).map request_id_of =
      (List.range' 1 calls.length).map some := by
    rw [sent_requests_ids, h0, List.range'_eq_map_range, List.map_map]
    apply List.map_congr_left
    intro k hk
    have hk1 : k < calls.length := List.mem_range.mp hk
    simp only [Function.comp]
    congr 1
    rw [Nat.mod_eq_of_lt (by omega)]
    omega
  refine ⟨hids, ?_⟩
  rw [hids]
  exact (List.nodup_range' 1 calls.length).map (Option.some_injective _)

/-- An instance of C10: three calls on a fresh client, each of which fails
with a connection error, carry the ids 1, 2 and 3. -/
theorem request_ids_count_up_witness :
    (sent_requests (Env.constant ⟨7, "Could not connect to server", 0, ""⟩ (.ok .null))
        [("account_list", .object []), ("network_info", .object []),
          ("blockchain_info", .object [])] fresh_client).map request_id_of =
      [some 1, some 2, some 3] :=
  (request_ids_count_up (Env.constant ⟨7, "Could not connect to server", 0, ""⟩ (.ok .null))
    "http://127.0.0.1:9944" 30 fresh_client
    [("account_list", .object []), ("network_info", .object []),
      ("blockchain_info", .object [])] rfl (by decide)).1

/-- C10 as stated fails: the counter is a uint64_t, so on a fresh client the
call number 2^64 builds a request with id 0 instead of 2^64, and the call after
it reuses the id 1 of the first call. -/
theorem request_id_wraps :
    ((sent_requests (Env.replying .null)
        (List.replicate (2 ^ 64 + 1) ("account_list", .object [])) fresh_client).map
        request_id_of)[2 ^ 64 - 1]? = some (some 0) ∧
    ((sent_requests (Env.replying .null)
        (List.replicate (2 ^ 64 + 1) ("account_list", .object [])) fresh_client).map
        request_id_of)[2 ^ 64]? = some (some 1) ∧
    ((sent_requests (Env.replying .null)
        (List.replicate (2 ^ 64 + 1) ("account_list", .object [])) fresh_client).map
        request_id_of)[0]? = some (some 1) := by
  rw [sent_requests_ids]
  simp only [List.length_replicate, List.getElem?_map]
  have h0 : fresh_client.request_id = 0 := rfl
  rw [List.getElem?_range (by norm_num), List.getElem?_range (by norm_num),
    List.getElem?_range (by norm_num), h0]
  refine ⟨?_, ?_, ?_⟩ <;> simp only [Option.map_some', Option.some.injEq] <;> norm_num

/-! ## The operation catalog -/

/-- C11: every operation of the command layer, on arguments that pass its
validation, is exactly one call of sendRequest with the method and the
parameter object of its catalog row; it returns the response of that call and
leaves the client in the state after that call. -/
theorem operations_delegate (env : Env) (st : Impl) :
    (∀ name, accountCreate env name st =
      return_sendRequest env "account_create" (.object [("name", .string name)]) st) ∧
    accountList env st = return_sendRequest env "account_list" (.object []) st ∧
    (∀ address, validateAddress address = .ok () → accountInfo env address st =
      return_sendRequest env "account_info" (.object [("address", .string address)]) st) ∧
    (∀ private_key name, accountImport env private_key name st =
      return_sendRequest env "account_import"
        (.object [("private_key", .string private_key), ("name", .string name)]) st) ∧
    (∀ address amount, validateAddress address = .ok () → 0 < amount →
      stakeTokens env address amount st =
        return_sendRequest env "stake_tokens"
          (.object [("address", .string address), ("amount", .number_unsigned amount)]) st) ∧
    (∀ address amount, validateAddress address = .ok () →
      unstakeTokens env address amount st =
        return_sendRequest env "unstake_tokens"
          (.object [("address", .string address), ("amount", .number_unsigned amount)]) st) ∧
    (∀ address, validateAddress address = .ok () → stakeInfo env address st =
      return_sendRequest env "stake_info" (.object [("address", .string address)]) st) ∧
    listValidators env st = return_sendRequest env "list_validators" (.object []) st ∧
    (∀ address, validateAddress address = .ok () → queryBalance env address st =
      return_sendRequest env "eth_getBalance" (.object [("address", .string address)]) st) ∧
    (∀ tx_hash, queryTransaction env tx_hash st =
      return_sendRequest env "eth_getTransactionByHash"
        (.object [("tx_hash", .string tx_hash)]) st) ∧
    getBlockchainInfo env st = return_sendRequest env "blockchain_info" (.object []) st ∧
    getNetworkInfo env st = return_sendRequest env "network_info" (.object []) st ∧
    (∀ src dst amount fee, validateAddress src = .ok () → validateAddress dst = .ok () →
      0 < amount → sendTransaction env src dst amount fee st =
        return_sendRequest env "eth_sendTransaction"
          (.object [("from", .string src), ("to", .string dst),
            ("amount", .number_unsigned amount), ("fee", .number_unsigned fee)]) st) ∧
    (∀ raw_tx, raw_tx.length ≠ 0 → sendRawTransaction env raw_tx st =
      return_sendRequest env "eth_sendRawTransaction"
        (.object [("raw_tx", .string raw_tx)]) st) ∧
    consensusDay env st = return_sendRequest env "consensus_current_day" (.object []) st ∧
    (∀ day_number, consensusDayInfo env day_number st =
      return_sendRequest env "consensus_day_info"
        (.object [("day_number", .number_unsigned day_number)]) st) ∧
    (∀ validator proposal_id vote, validateAddress validator = .ok () →
      submitVote env validator proposal_id vote st =
        return_sendRequest env "consensus_submit_vote"
          (.object [("validator", .string validator), ("proposal_id", .string proposal_id),
            ("vote", .boolean vote)]) st) ∧
    (∀ method params, return_sendRequest env method params st =
      (.ok (sendRequest env method params st).1, (sendRequest env method params st).2) ∧
      (sendRequest env method params st).2.request_id = next_request_id st) := by
  refine ⟨?_, ?_, ?_, ?_, ?_, ?_, ?_, ?_, ?_, ?_, ?_, ?_, ?_, ?_, ?_, ?_, ?_, ?_⟩
  · intro name; rfl
  · rfl
  · intro address h; simp [accountInfo, h]
  · intro private_key name; rfl
  · intro address amount h hpos
    have : amount ≠ 0 := by omega
    simp [stakeTokens, h, this]
  · intro address amount h; simp [unstakeTokens, h]
  · intro address h; simp [stakeInfo, h]
  · rfl
  · intro address h; simp [queryBalance, h]
  · intro tx_hash; rfl
  · rfl
  · rfl
  · intro src dst amount fee hs hd hpos
    have : amount ≠ 0 := by omega
    simp [sendTransaction, hs, hd, this]
  · intro raw_tx h; simp [sendRawTransaction, h]
  · rfl
  · intro day_number; rfl
  · intro validator proposal_id vote h; simp [submitVote, h]
  · intro method params
    refine ⟨rfl, ?_⟩
    simp only [sendRequest]
    split <;> (try split) <;> rfl

/-- An instance of C11: staking 5 from "etr1234567" against a node that answers
{"result": true}. -/
theorem operations_delegate_witness :
    stakeTokens (Env.replying (.object [("result", .boolean true)])) "etr1234567" 5
        fresh_client =
      (.ok { success := true, result := .boolean true, error_message := "", error_code := 0 },
        { fresh_client with request_id := 1 }) :=
  ((operations_delegate (Env.replying (.object [("result", .boolean true)]))
    fresh_client).2.2.2.2.1 "etr1234567" 5 (by decide) (by decide)).trans rfl

/-! ## The command line -/

theorem stoull_error_what (s : String) (e : Exception) (h : stoull s = .error e) :
    e.what = "stoull" := by
  unfold stoull at h
  simp only at h
  split_ifs at h <;> (rw [← Except.error.inj h]; rfl)

theorem stoull_no_digit (s : String) (h : ∀ c ∈ s.data, isdigit c = false) :
    stoull s = .error (.invalid_argument "stoull") := by
  have key : ∀ l : List Char, (∀ c ∈ l, c ∈ s.data) →
      (l.takeWhile isdigit).isEmpty = true := by
    intro l hl
    cases l with
    | nil => rfl
    | cons c t => simp [List.takeWhile, h c (hl c (by simp))]
  have h1 : ∀ c ∈ (s.data.takeWhile fun c => c != Char.ofNat 0).dropWhile isspace, c ∈ s.data :=
    fun c hc => (List.takeWhile_sublist _).subset ((List.dropWhile_sublist _).subset hc)
  have h2 : ∀ (b : Bool), ∀ c ∈ (if b = true then
      ((s.data.takeWhile fun c => c != Char.ofNat 0).dropWhile isspace).tail
      else (s.data.takeWhile fun c => c != Char.ofNat 0).dropWhile isspace), c ∈ s.data := by
    intro b c hc
    cases b
    · exact h1 c hc
    · exact h1 c (List.mem_of_mem_tail hc)
  unfold stoull
  exact if_pos (key _ (h2 _))

theorem with_stoull_error (text : String) (st : Impl) (op : Nat → Outcome) (e : Exception)
    (h : stoull text = .error e) : with_stoull text st op = (.error e, st) := by
  simp [with_stoull, h]

theorem with_stoull_ok (text : String) (st : Impl) (op : Nat → Outcome) (v : Nat)
    (h : stoull text = .ok v) : with_stoull text st op = op v := by
  simp [with_stoull, h]

theorem finish_error (env : Env) (e : Exception) (st : Impl) :
    finish env (.error e, st) =
      { exit_code := 1, cout := [], cerr := ["Error: " ++ e.what], client := st } := rfl

theorem executeCommand_stoull_error (env : Env) (args : List String) (st : Impl)
    (e : Exception) (text : String) (hne : args.length ≠ 0)
    (hd : dispatch env args st = .ran (.error e, st)) (he : stoull text = .error e) :
    executeCommand env args st =
      { exit_code := 1, cout := [], cerr := ["Error: stoull"], client := st } := by
  simp only [executeCommand, beq_iff_eq, hne, if_false, hd, finish_error,
    stoull_error_what text e he]
  rfl

/-- C12 (amended): for an invocation of stake, unstake, send or consensusdayinfo
whose amount, fee or day-number argument is a text that std::stoull does not
convert (as every text without a decimal digit), executeCommand writes
"Error: stoull" to standard error, returns 1 and leaves the client state
unchanged: no call of sendRequest is made. -/
theorem unconverted_number_no_call (env : Env) (st : Impl) :
    (∀ text, (∀ c ∈ text.data, isdigit c = false) → ∃ e, stoull text = .error e) ∧
    (∀ address amount rest e, stoull amount = .error e →
      executeCommand env ("stake" :: address :: amount :: rest) st =
        { exit_code := 1, cout := [], cerr := ["Error: stoull"], client := st }) ∧
    (∀ address amount rest e, stoull amount = .error e →
      executeCommand env ("unstake" :: address :: amount :: rest) st =
        { exit_code := 1, cout := [], cerr := ["Error: stoull"], client := st }) ∧
    (∀ src dst amount e, stoull amount = .error e →
      executeCommand env ["send", src, dst, amount] st =
        { exit_code := 1, cout := [], cerr := ["Error: stoull"], client := st }) ∧
    (∀ src dst amount fee rest e, stoull amount = .error e ∨ stoull fee = .error e →
      executeCommand env ("send" :: src :: dst :: amount :: fee :: rest) st =
        { exit_code := 1, cout := [], cerr := ["Error: stoull"], client := st }) ∧
    (∀ day rest e, stoull day = .error e →
      executeCommand env ("consensusdayinfo" :: day :: rest) st =
        { exit_code := 1, cout := [], cerr := ["Error: stoull"], client := st }) := by
  refine ⟨fun text h => ⟨_, stoull_no_digit text h⟩, ?_, ?_, ?_, ?_, ?_⟩
  · intro address amount rest e he
    refine executeCommand_stoull_error env _ st e amount (by simp) ?_ he
    simp [dispatch, dispatch_stake, dispatch_query, dispatch_transaction, dispatch_consensus, arg, with_stoull_error _ _ _ e he]
  · intro address amount rest e he
    refine executeCommand_stoull_error env _ st e amount (by simp) ?_ he
    simp [dispatch, dispatch_stake, dispatch_query, dispatch_transaction, dispatch_consensus, arg, with_stoull_error _ _ _ e he]
  · intro src dst amount e he
    refine executeCommand_stoull_error env _ st e amount (by simp) ?_ he
    simp [dispatch, dispatch_stake, dispatch_query, dispatch_transaction, dispatch_consensus, arg, with_stoull_error _ _ _ e he]
  · intro src dst amount fee rest e he
    cases hfee : stoull fee with
    | error e1 =>
      refine executeCommand_stoull_error env _ st e1 fee (by simp) ?_ hfee
      simp [dispatch, dispatch_stake, dispatch_query, dispatch_transaction, dispatch_consensus, arg, with_stoull_error _ _ _ e1 hfee]
    | ok v =>
      have ha : stoull amount = .error e := by
        rcases he with h | h
        · exact h
        · rw [hfee] at h; exact absurd h (by simp)
      refine executeCommand_stoull_error env _ st e amount (by simp) ?_ ha
      simp [dispatch, dispatch_stake, dispatch_query, dispatch_transaction, dispatch_consensus, arg, with_stoull_ok _ _ _ v hfee, with_stoull_error _ _ _ e ha]
  · intro day rest e he
    refine executeCommand_stoull_error env _ st e day (by simp) ?_ he
    simp [dispatch, dispatch_stake, dispatch_query, dispatch_transaction, dispatch_consensus, arg, with_stoull_error _ _ _ e he]

/-- An instance of C12 (amended): "stake etr1234567 abc". -/
theorem unconverted_number_no_call_witness :
    executeCommand (Env.replying (.object [("result", .boolean true)]))
        ["stake", "etr1234567", "abc"] fresh_client =
      { exit_code := 1, cout := [], cerr := ["Error: stoull"], client := fresh_client } :=
  (unconverted_number_no_call (Env.replying (.object [("result", .boolean true)]))
    fresh_client).2.1 "etr1234567" "abc" [] (.invalid_argument "stoull") (by decide)

/-- C12 as stated fails: "12abc" (digits followed by other characters) and "-5"
(a leading minus sign) are not decimal texts of non-negative integers, but
std::stoull converts them to 12 and to 2^64 - 5; "stake etr1234567 12abc"
then calls the node (the request counter goes from 0 to 1) and returns 0. -/
theorem stake_accepts_trailing_text :
    ¬ all_digits "12abc" ∧ ¬ all_digits "-5" ∧
    stoull "12abc" = .ok 12 ∧ stoull "-5" = .ok 18446744073709551611 ∧
    dispatch (Env.replying (.object [("result", .boolean true)]))
        ["stake", "etr1234567", "12abc"] fresh_client =
      .ran (stakeTokens (Env.replying (.object [("result", .boolean true)]))
        "etr1234567" 12 fresh_client) ∧
    dispatch (Env.replying (.object [("result", .boolean true)]))
        ["stake", "etr1234567", "-5"] fresh_client =
      .ran (stakeTokens (Env.replying (.object [("result", .boolean true)]))
        "etr1234567" 18446744073709551611 fresh_client) ∧
    (executeCommand (Env.replying (.object [("result", .boolean true)]))
        ["stake", "etr1234567", "12abc"] fresh_client).exit_code = 0 ∧
    (executeCommand (Env.replying (.object [("result", .boolean true)]))
        ["stake", "etr1234567", "12abc"] fresh_client).client.request_id = 1 :=
  ⟨by decide, by decide, by decide, by decide, rfl, rfl, by decide, by decide⟩

/-! ## Output of `executeCommand` -/

theorem printResponse_cases (env : Env) (response : RPCResponse) :
    (response.success = false ∧ printResponse env response true =
        .ok { cout := [], cerr := [error_line response.error_code response.error_message] }) ∨
    (response.success = true ∧ ∃ text, env.dump_pretty response.result = .ok text ∧
        printResponse env response true = .ok { cout := [text], cerr := [] }) ∨
    (response.success = true ∧ ∃ e, printResponse env response true = .error e) := by
  cases hs : response.success with
  | false => exact Or.inl ⟨rfl, by simp [printResponse, hs, error_line]⟩
  | true =>
    cases hd : env.dump_pretty response.result with
    | error e => exact Or.inr (Or.inr ⟨rfl, e, by simp [printResponse, hs, hd]⟩)
    | ok text => exact Or.inr (Or.inl ⟨rfl, text, rfl, by simp [printResponse, hs, hd]⟩)

theorem finish_streams (env : Env) (outcome : Outcome) :
    ((finish env outcome).cout = [] ∨ (finish env outcome).cerr = []) ∧
    ((finish env outcome).exit_code = 0 → (finish env outcome).cerr = [] ∧
      ∃ response text, outcome.1 = .ok response ∧ response.success = true ∧
        env.dump_pretty response.result = .ok text ∧ (finish env outcome).cout = [text]) ∧
    ((finish env outcome).exit_code ≠ 0 → (finish env outcome).exit_code = 1 ∧
      (finish env outcome).cout = [] ∧ (finish env outcome).cerr ≠ []) ∧
    (∀ response, outcome.1 = .ok response → response.success = false →
      (finish env outcome).exit_code = 1 ∧ (finish env outcome).cout = [] ∧
        (finish env outcome).cerr = [error_line response.error_code response.error_message]) := by
  obtain ⟨result, st⟩ := outcome
  cases result with
  | error e => simp [finish]
  | ok response =>
    rcases printResponse_cases env response with ⟨hs, hp⟩ | ⟨hs, text, hd, hp⟩ | ⟨hs, e, hp⟩
    · simp [finish, hp, hs]
    · simp [finish, hp, hs, hd]
    · simp [finish, hp, hs]

theorem dispatch_consensus_usage (env : Env) (args : List String) (st : Impl) (lines : List String)
    (hl : dispatch_consensus env args st = .usage lines) : lines ≠ [] := by
  unfold dispatch_consensus at hl
  dsimp only at hl
  split_ifs at hl <;> cases hl <;> exact List.cons_ne_nil _ _

theorem dispatch_transaction_usage (env : Env) (args : List String) (st : Impl)
    (lines : List String) (hl : dispatch_transaction env args st = .usage lines) :
    lines ≠ [] := by
  unfold dispatch_transaction at hl
  dsimp only at hl
  split_ifs at hl <;> first
    | exact dispatch_consensus_usage env args st lines hl
    | (cases hl; exact List.cons_ne_nil _ _)

theorem dispatch_query_usage (env : Env) (args : List String) (st : Impl) (lines : List String)
    (hl : dispatch_query env args st = .usage lines) : lines ≠ [] := by
  unfold dispatch_query at hl
  dsimp only at hl
  split_ifs at hl <;> first
    | exact dispatch_transaction_usage env args st lines hl
    | (cases hl; exact List.cons_ne_nil _ _)

theorem dispatch_stake_usage (env : Env) (args : List String) (st : Impl) (lines : List String)
    (hl : dispatch_stake env args st = .usage lines) : lines ≠ [] := by
  unfold dispatch_stake at hl
  dsimp only at hl
  split_ifs at hl <;> first
    | exact dispatch_query_usage env args st lines hl
    | (cases hl; exact List.cons_ne_nil _ _)

theorem dispatch_usage_ne_nil (env : Env) (args : List String) (st : Impl) (lines : List String)
    (hl : dispatch env args st = .usage lines) : lines ≠ [] := by
  unfold dispatch at hl
  dsimp only at hl
  split_ifs at hl <;> first
    | exact dispatch_stake_usage env args st lines hl
    | (cases hl; exact List.cons_ne_nil _ _)

/-- C15 (amended): executeCommand never writes to both streams.  When it returns
0 it writes only the text of the result JSON to standard output.  When it does
not return 0 it returns 1 and writes only to standard error; if the operation
of the command returned a failure response, what it writes is the single line
"Error [<code>]: <message>" of that response. -/
theorem executeCommand_streams (env : Env) (args : List String) (st : Impl) :
    ((executeCommand env args st).cout = [] ∨ (executeCommand env args st).cerr = []) ∧
    ((executeCommand env args st).exit_code = 0 →
      (executeCommand env args st).cerr = [] ∧
      ∃ response client text, dispatch env args st = .ran (.ok response, client) ∧
        response.success = true ∧ env.dump_pretty response.result = .ok text ∧
        (executeCommand env args st).cout = [text]) ∧
    ((executeCommand env args st).exit_code ≠ 0 →
      (executeCommand env args st).exit_code = 1 ∧ (executeCommand env args st).cout = [] ∧
      (executeCommand env args st).cerr ≠ []) ∧
    (∀ response client, dispatch env args st = .ran (.ok response, client) →
      response.success = false →
      (executeCommand env args st).exit_code = 1 ∧ (executeCommand env args st).cout = [] ∧
      (executeCommand env args st).cerr =
        [error_line response.error_code response.error_message]) := by
  cases args with
  | nil =>
    have h1 : (executeCommand env [] st).exit_code = 1 := rfl
    refine ⟨Or.inl rfl, fun h => ?_, fun _ => ⟨rfl, rfl, by simp [executeCommand]⟩,
      fun response client hd => ?_⟩
    · rw [h1] at h
      exact absurd h (by decide)
    · exact absurd hd (by
        simp [dispatch, dispatch_stake, dispatch_query, dispatch_transaction, dispatch_consensus,
          arg])
  | cons a rest =>
    have hne : ((a :: rest).length == 0) = false := by simp
    cases hd : dispatch env (a :: rest) st with
    | usage lines =>
      have hl : lines ≠ [] := dispatch_usage_ne_nil env (a :: rest) st lines hd
      simp [executeCommand, hd, hl]
    | ran outcome =>
      have he : executeCommand env (a :: rest) st = finish env outcome := by
        simp [executeCommand, hd]
      obtain ⟨h1, h2, h3, h4⟩ := finish_streams env outcome
      rw [he]
      refine ⟨h1, ?_, h3, ?_⟩
      · intro h0
        obtain ⟨hc, response, text, ho, hs, hdump, hout⟩ := h2 h0
        refine ⟨hc, response, outcome.2, text, ?_, hs, hdump, hout⟩
        rw [← ho]
      · intro response client hr
        have : outcome = (.ok response, client) := Dispatched.ran.inj hr
        exact h4 response (by rw [this])

/-- An instance of C15 (amended): "stake etr1234567 0" ends with the failure
response of stakeTokens and writes its line to standard error only. -/
theorem executeCommand_streams_witness :
    (executeCommand (Env.replying .null) ["stake", "etr1234567", "0"] fresh_client).exit_code = 1 ∧
    (executeCommand (Env.replying .null) ["stake", "etr1234567", "0"] fresh_client).cout = [] ∧
    (executeCommand (Env.replying .null) ["stake", "etr1234567", "0"] fresh_client).cerr =
      ["Error [-1]: Invalid stake amount: must be greater than 0"] :=
  have h := (executeCommand_streams (Env.replying .null) ["stake", "etr1234567", "0"]
    fresh_client).2.2.2
    (RPCResponse.ofError false "Invalid stake amount: must be greater than 0" (-1)) fresh_client
    rfl rfl
  ⟨h.1, h.2.1, h.2.2.trans (by decide)⟩

/-- C15 as stated fails: with no command, with an unknown command and with an
amount that is not a number, executeCommand fails and writes to standard error,
but what it writes is not a line of the form "Error [<code>]: <message>". -/
theorem executeCommand_other_error_lines :
    (executeCommand (Env.replying .null) [] fresh_client).exit_code = 1 ∧
    (executeCommand (Env.replying .null) [] fresh_client).cerr =
      ["Error: No command specified. Use -h for help."] ∧
    (∀ code message,
      "Error: No command specified. Use -h for help." ≠ error_line code message) ∧
    (executeCommand (Env.replying .null) ["mine"] fresh_client).cerr =
      ["Error: Unknown command: mine", "Use -h for help."] ∧
    (executeCommand (Env.replying .null) ["stake", "etr1234567", "abc"] fresh_client).cerr =
      ["Error: stoull"] := by
  refine ⟨rfl, rfl, ?_, by decide, by decide⟩
  intro code message h
  have h1 := congrArg (fun s => s.data.get? 5) h
  simp [error_line, String.data_append] at h1

/-- C16: for the vote command with at least three arguments after the command
name, executeCommand calls submitVote with the flag that is true exactly when
the third argument is "yes", "true" or "1", whatever that argument is; for a
valid validator address this is one call of sendRequest with the method
"consensus_submit_vote" whose "vote" parameter is that flag, so any other text
is sent as vote = false. -/
theorem vote_flag (env : Env) (validator proposal choice : String) (rest : List String)
    (st : Impl) :
    executeCommand env ("vote" :: validator :: proposal :: choice :: rest) st =
      finish env (submitVote env validator proposal
        (decide (choice = "yes" ∨ choice = "true" ∨ choice = "1")) st) ∧
    (validateAddress validator = .ok () →
      submitVote env validator proposal
          (decide (choice = "yes" ∨ choice = "true" ∨ choice = "1")) st =
        return_sendRequest env "consensus_submit_vote"
          (.object [("validator", .string validator), ("proposal_id", .string proposal),
            ("vote", .boolean (decide (choice = "yes" ∨ choice = "true" ∨ choice = "1")))])
          st) ∧
    (validateAddress validator = .ok () → choice ≠ "yes" → choice ≠ "true" → choice ≠ "1" →
      executeCommand env ("vote" :: validator :: proposal :: choice :: rest) st =
        finish env (return_sendRequest env "consensus_submit_vote"
          (.object [("validator", .string validator), ("proposal_id", .string proposal),
            ("vote", .boolean false)]) st)) := by
  have hflag : (choice == "yes" || choice == "true" || choice == "1") =
      decide (choice = "yes" ∨ choice = "true" ∨ choice = "1") := by
    by_cases h1 : choice = "yes" <;> by_cases h2 : choice = "true" <;>
      by_cases h3 : choice = "1" <;> simp [h1, h2, h3]
  have hexec : executeCommand env ("vote" :: validator :: proposal :: choice :: rest) st =
      finish env (submitVote env validator proposal
        (decide (choice = "yes" ∨ choice = "true" ∨ choice = "1")) st) := by
    have hd : dispatch env ("vote" :: validator :: proposal :: choice :: rest) st =
        .ran (submitVote env validator proposal
          (decide (choice = "yes" ∨ choice = "true" ∨ choice = "1")) st) := by
      rw [← hflag]
      simp [dispatch, dispatch_stake, dispatch_query, dispatch_transaction, dispatch_consensus,
        arg]
    simp [executeCommand, hd]
  have hsub : validateAddress validator = .ok () →
      submitVote env validator proposal
          (decide (choice = "yes" ∨ choice = "true" ∨ choice = "1")) st =
        return_sendRequest env "consensus_submit_vote"
          (.object [("validator", .string validator), ("proposal_id", .string proposal),
            ("vote", .boolean (decide (choice = "yes" ∨ choice = "true" ∨ choice = "1")))])
          st := by
    intro hv
    simp [submitVote, hv]
  refine ⟨hexec, hsub, ?_⟩
  intro hv h1 h2 h3
  rw [hexec, hsub hv]
  simp [h1, h2, h3]

/-- Instances of C16: "yes" is sent as true, "YES" and "no" are sent as false. -/
theorem vote_flag_witness :
    dispatch (Env.replying .null) ["vote", "etr1234567", "p1", "yes"] fresh_client =
      .ran (return_sendRequest (Env.replying .null) "consensus_submit_vote"
        (.object [("validator", .string "etr1234567"), ("proposal_id", .string "p1"),
          ("vote", .boolean true)]) fresh_client) ∧
    executeCommand (Env.replying .null) ["vote", "etr1234567", "p1", "YES"] fresh_client =
      finish (Env.replying .null) (return_sendRequest (Env.replying .null)
        "consensus_submit_vote"
        (.object [("validator", .string "etr1234567"), ("proposal_id", .string "p1"),
          ("vote", .boolean false)]) fresh_client) ∧
    executeCommand (Env.replying .null) ["vote", "etr1234567", "p1", "no"] fresh_client =
      finish (Env.replying .null) (return_sendRequest (Env.replying .null)
        "consensus_submit_vote"
        (.object [("validator", .string "etr1234567"), ("proposal_id", .string "p1"),
          ("vote", .boolean false)]) fresh_client) :=
  ⟨rfl,
    (vote_flag (Env.replying .null) "etr1234567" "p1" "YES" [] fresh_client).2.2
      (by decide) (by decide) (by decide) (by decide),
    (vote_flag (Env.replying .null) "etr1234567" "p1" "no" [] fresh_client).2.2
      (by decide) (by decide) (by decide) (by decide)⟩

/-! ## The shape of the responses -/

theorem one_variant_ofError (err : String) (code : Int) :
    one_variant (RPCResponse.ofError false err code) := by
  simp [one_variant, RPCResponse.ofError]

theorem one_variant_ofResult (r : Json) : one_variant (RPCResponse.ofResult true r) := by
  simp [one_variant, RPCResponse.ofResult]

theorem sendRequest_classify_one_variant (env : Env) (response : Json) (r : RPCResponse)
    (h : sendRequest_classify env response = .ok r) : one_variant r := by
  unfold sendRequest_classify at h
  split at h
  · split at h
    · exact absurd h (by simp)
    · split at h
      · exact absurd h (by simp)
      · split at h
        · exact absurd h (by simp)
        · rw [← Except.ok.inj h]; exact one_variant_ofError _ _
  · split at h
    · split at h
      · exact absurd h (by simp)
      · rw [← Except.ok.inj h]; exact one_variant_ofResult _
    · rw [← Except.ok.inj h]; exact one_variant_ofError _ _

theorem sendRequest_one_variant (env : Env) (method : String) (params : Json) (st : Impl) :
    one_variant (sendRequest env method params st).1 := by
  simp only [sendRequest]
  split
  · exact one_variant_ofError _ _
  · split
    · exact one_variant_ofError _ _
    · next r hr => exact sendRequest_classify_one_variant env _ r hr

theorem return_sendRequest_one_variant (env : Env) (method : String) (params : Json)
    (st st1 : Impl) (r : RPCResponse)
    (h : return_sendRequest env method params st = (.ok r, st1)) : one_variant r := by
  have h1 := (Prod.mk.inj h).1
  rw [← Except.ok.inj h1]
  exact sendRequest_one_variant env method params st

theorem guarded_one_variant (env : Env) (address method : String) (params : Json)
    (st st1 : Impl) (r : RPCResponse)
    (h : (match validateAddress address with
      | .error e => ((.error e, st) : Outcome)
      | .ok _ => return_sendRequest env method params st) = (.ok r, st1)) : one_variant r := by
  split at h
  · exact absurd (Prod.mk.inj h).1 (by simp)
  · exact return_sendRequest_one_variant env method params st st1 r h

/-- C13: every response returned by sendRequest, and every response returned by
an operation of the command layer, has exactly one variant populated: with
success true the error message is empty and the error code is 0, with success
false the result payload is null. -/
theorem responses_one_variant (env : Env) (st : Impl) :
    (∀ method params, one_variant (sendRequest env method params st).1) ∧
    (∀ name r st1, accountCreate env name st = (.ok r, st1) → one_variant r) ∧
    (∀ r st1, accountList env st = (.ok r, st1) → one_variant r) ∧
    (∀ address r st1, accountInfo env address st = (.ok r, st1) → one_variant r) ∧
    (∀ private_key name r st1,
      accountImport env private_key name st = (.ok r, st1) → one_variant r) ∧
    (∀ address amount r st1, stakeTokens env address amount st = (.ok r, st1) → one_variant r) ∧
    (∀ address amount r st1,
      unstakeTokens env address amount st = (.ok r, st1) → one_variant r) ∧
    (∀ address r st1, stakeInfo env address st = (.ok r, st1) → one_variant r) ∧
    (∀ r st1, listValidators env st = (.ok r, st1) → one_variant r) ∧
    (∀ address r st1, queryBalance env address st = (.ok r, st1) → one_variant r) ∧
    (∀ identifier r st1, queryBlock env identifier st = (.ok r, st1) → one_variant r) ∧
    (∀ tx_hash r st1, queryTransaction env tx_hash st = (.ok r, st1) → one_variant r) ∧
    (∀ r st1, getBlockchainInfo env st = (.ok r, st1) → one_variant r) ∧
    (∀ r st1, getNetworkInfo env st = (.ok r, st1) → one_variant r) ∧
    (∀ src dst amount fee r st1,
      sendTransaction env src dst amount fee st = (.ok r, st1) → one_variant r) ∧
    (∀ raw_tx r st1, sendRawTransaction env raw_tx st = (.ok r, st1) → one_variant r) ∧
    (∀ r st1, consensusDay env st = (.ok r, st1) → one_variant r) ∧
    (∀ day_number r st1, consensusDayInfo env day_number st = (.ok r, st1) → one_variant r) ∧
    (∀ validator proposal_id vote r st1,
      submitVote env validator proposal_id vote st = (.ok r, st1) → one_variant r) := by
  refine ⟨?_, ?_, ?_, ?_, ?_, ?_, ?_, ?_, ?_, ?_, ?_, ?_, ?_, ?_, ?_, ?_, ?_, ?_, ?_⟩
  · intro method params
    exact sendRequest_one_variant env method params st
  · intro name r st1 h
    exact return_sendRequest_one_variant env _ _ st st1 r h
  · intro r st1 h
    exact return_sendRequest_one_variant env _ _ st st1 r h
  · intro address r st1 h
    exact guarded_one_variant env address _ _ st st1 r h
  · intro private_key name r st1 h
    exact return_sendRequest_one_variant env _ _ st st1 r h
  · intro address amount r st1 h
    unfold stakeTokens at h
    split at h
    · exact absurd (Prod.mk.inj h).1 (by simp)
    · split at h
      · rw [← Except.ok.inj (Prod.mk.inj h).1]; exact one_variant_ofError _ _
      · exact return_sendRequest_one_variant env _ _ st st1 r h
  · intro address amount r st1 h
    exact guarded_one_variant env address _ _ st st1 r h
  · intro address r st1 h
    exact guarded_one_variant env address _ _ st st1 r h
  · intro r st1 h
    exact return_sendRequest_one_variant env _ _ st st1 r h
  · intro address r st1 h
    exact guarded_one_variant env address _ _ st st1 r h
  · intro identifier r st1 h
    unfold queryBlock at h
    simp only at h
    split at h
    · split at h
      · exact absurd (Prod.mk.inj h).1 (by simp)
      · exact return_sendRequest_one_variant env _ _ st st1 r h
    · exact return_sendRequest_one_variant env _ _ st st1 r h
  · intro tx_hash r st1 h
    exact return_sendRequest_one_variant env _ _ st st1 r h
  · intro r st1 h
    exact return_sendRequest_one_variant env _ _ st st1 r h
  · intro r st1 h
    exact return_sendRequest_one_variant env _ _ st st1 r h
  · intro src dst amount fee r st1 h
    unfold sendTransaction at h
    split at h
    · exact absurd (Prod.mk.inj h).1 (by simp)
    · split at h
      · exact absurd (Prod.mk.inj h).1 (by simp)
      · split at h
        · rw [← Except.ok.inj (Prod.mk.inj h).1]; exact one_variant_ofError _ _
        · exact return_sendRequest_one_variant env _ _ st st1 r h
  · intro raw_tx r st1 h
    unfold sendRawTransaction at h
    split at h
    · rw [← Except.ok.inj (Prod.mk.inj h).1]; exact one_variant_ofError _ _
    · exact return_sendRequest_one_variant env _ _ st st1 r h
  · intro r st1 h
    exact return_sendRequest_one_variant env _ _ st st1 r h
  · intro day_number r st1 h
    exact return_sendRequest_one_variant env _ _ st st1 r h
  · intro validator proposal_id vote r st1 h
    exact guarded_one_variant env validator _ _ st st1 r h

/-- An instance of C13: the response of stakeTokens for the amount 0. -/
theorem responses_one_variant_witness :
    one_variant
      { success := false, result := .null,
        error_message := "Invalid stake amount: must be greater than 0", error_code := -1 } :=
  (responses_one_variant (Env.replying .null) fresh_client).2.2.2.2.2.1 "etr1234567" 0 _
    fresh_client rfl

/-! ## Application errors -/

theorem request_failed_type_error_ne (id : Nat) (msg : String) :
    "Request failed: " ++ type_error_what id msg ≠ "Request failed: HTTP error: 500" := by
  intro h
  have h1 := congrArg (fun s => s.data.get? 16) h
  simp [type_error_what, String.data_append] at h1

theorem sendRequest_classify_error_object (env : Env) (body : Json)
    (members : List (String × Json)) (herror : body.find "error" = some (.object members)) :
    sendRequest_classify env body =
      match (Json.object members).value_string "message" "Unknown error" with
      | .error e => .error e
      | .ok error_msg =>
        match (Json.object members).value_int env.double_to_int "code" (-1) with
        | .error e => .error e
        | .ok error_code => .ok (RPCResponse.ofError false error_msg error_code) := by
  obtain ⟨bm, rfl⟩ := find_object_of_some body "error" _ herror
  simp [sendRequest_classify, Json.contains, Json.index, herror]

theorem value_string_error_what (j : Json) (key default_value : String) (e : Exception)
    (h : j.value_string key default_value = .error e) :
    ∃ id msg, e = .type_error (type_error_what id msg) := by
  unfold Json.value_string at h
  split at h
  · split at h
    · exact absurd h (by simp)
    · exact ⟨_, _, (Except.error.inj h).symm⟩
    · exact absurd h (by simp)
  · exact ⟨_, _, (Except.error.inj h).symm⟩

theorem value_int_error_what (f : Nat → Int) (j : Json) (key : String) (default_value : Int)
    (e : Exception) (h : j.value_int f key default_value = .error e) :
    ∃ id msg, e = .type_error (type_error_what id msg) := by
  unfold Json.value_int at h
  split at h
  · split at h
    · exact absurd h (by simp)
    · exact absurd h (by simp)
    · exact absurd h (by simp)
    · exact absurd h (by simp)
    · exact ⟨_, _, (Except.error.inj h).symm⟩
    · exact absurd h (by simp)
  · exact ⟨_, _, (Except.error.inj h).symm⟩

/-- The message of the failure returned for a body whose "error" member is an
object: the string under "message", or "Unknown error" when there is no such
member, or the text of a caught `type_error`. -/
theorem error_object_message (env : Env) (method : String) (params : Json) (st : Impl)
    (body : Json) (members : List (String × Json))
    (hbody : receives env method params st body)
    (herror : body.find "error" = some (.object members)) :
    (sendRequest env method params st).1.success = false ∧
    (sendRequest env method params st).1.result = .null ∧
    ((∃ m, (Json.object members).find "message" = some (.string m) ∧
        (sendRequest env method params st).1.error_message = m) ∨
      ((Json.object members).find "message" = none ∧
        (sendRequest env method params st).1.error_message = "Unknown error") ∨
      (∃ id msg, (sendRequest env method params st).1.error_message =
        "Request failed: " ++ type_error_what id msg)) := by
  rw [sendRequest_of_receives env method params st body hbody,
    sendRequest_classify_error_object env body members herror]
  cases hs : (Json.object members).value_string "message" "Unknown error" with
  | error e =>
    obtain ⟨id, msg, rfl⟩ := value_string_error_what _ _ _ e hs
    exact ⟨rfl, rfl, Or.inr (Or.inr ⟨id, msg, rfl⟩)⟩
  | ok error_msg =>
    cases hi : (Json.object members).value_int env.double_to_int "code" (-1) with
    | error e =>
      obtain ⟨id, msg, rfl⟩ := value_int_error_what _ _ _ _ e hi
      exact ⟨rfl, rfl, Or.inr (Or.inr ⟨id, msg, rfl⟩)⟩
    | ok error_code =>
      refine ⟨rfl, rfl, ?_⟩
      cases hf : (Json.object members).find "message" with
      | none =>
        simp [Json.value_string, hf] at hs
        exact Or.inr (Or.inl ⟨rfl, hs.symm ▸ rfl⟩)
      | some v =>
        cases v <;> simp [Json.value_string, hf] at hs
        exact Or.inl ⟨_, rfl, hs ▸ rfl⟩

/-- C14 (amended): the failure returned for an HTTP response with status 500 has
the message "Request failed: HTTP error: 500"; the failure returned for an
HTTP-200 response whose body carries an "error" object has a different message,
unless the "message" member of that object is itself the string
"Request failed: HTTP error: 500". -/
theorem http_500_and_application_error (env1 env2 : Env) (method1 method2 : String)
    (params1 params2 : Json) (st1 st2 : Impl) (request_body : String) (body : Json)
    (members : List (String × Json))
    (hcurl : st1.curl = true)
    (hdump : env1.dump (sent_request method1 params1 st1) = .ok request_body)
    (hres : (env1.curl_easy_perform (during_call st1) request_body).res = 0)
    (h500 : (env1.curl_easy_perform (during_call st1) request_body).http_code = 500)
    (hbody : receives env2 method2 params2 st2 body)
    (herror : body.find "error" = some (.object members))
    (hmessage : (Json.object members).find "message" ≠
      some (.string "Request failed: HTTP error: 500")) :
    (sendRequest env1 method1 params1 st1).1 =
      { success := false, result := .null, error_message := "Request failed: HTTP error: 500",
        error_code := -1 } ∧
    (sendRequest env2 method2 params2 st2).1.success = false ∧
    (sendRequest env1 method1 params1 st1).1.error_message ≠
      (sendRequest env2 method2 params2 st2).1.error_message := by
  have h1 : (sendRequest env1 method1 params1 st1).1 =
      { success := false, result := .null, error_message := "Request failed: HTTP error: 500",
        error_code := -1 } := by
    have h := (sendRequest_transport_failure_cases env1 method1 params1 st1 request_body
      hcurl hdump).2.1 _ rfl hres (by rw [h500]; decide)
    rw [h, h500]
    rfl
  obtain ⟨hs, _, hm⟩ := error_object_message env2 method2 params2 st2 body members hbody herror
  refine ⟨h1, hs, ?_⟩
  rw [h1]
  simp only
  rcases hm with ⟨m, hfind, hmsg⟩ | ⟨_, hmsg⟩ | ⟨id, msg, hmsg⟩
  · rw [hmsg]
    intro heq
    exact hmessage (by rw [hfind, heq])
  · rw [hmsg]
    decide
  · rw [hmsg]
    exact (request_failed_type_error_ne id msg).symm

/-- An instance of C14 (amended): status 500 against the body
{"error": {"message": "Insufficient balance", "code": -32000}}. -/
theorem http_500_and_application_error_witness :
    (sendRequest (Env.constant ⟨0, "No error", 500, "Internal Server Error"⟩ (.ok .null))
        "stake_info" (.object []) fresh_client).1.error_message ≠
      (sendRequest
        (Env.replying (.object [("error", .object [("message", .string "Insufficient balance"),
          ("code", .number_integer (-32000))])]))
        "stake_info" (.object []) fresh_client).1.error_message :=
  (http_500_and_application_error
    (Env.constant ⟨0, "No error", 500, "Internal Server Error"⟩ (.ok .null))
    (Env.replying (.object [("error", .object [("message", .string "Insufficient balance"),
      ("code", .number_integer (-32000))])]))
    "stake_info" "stake_info" (.object []) (.object []) fresh_client fresh_client "request"
    (.object [("error", .object [("message", .string "Insufficient balance"),
      ("code", .number_integer (-32000))])])
    [("message", .string "Insufficient balance"), ("code", .number_integer (-32000))]
    rfl rfl rfl rfl ⟨rfl, "request", rfl, rfl, rfl, rfl⟩ rfl (by simp [Json.find])).2.2

/-- C14 as stated fails: the body
{"error": {"message": "Request failed: HTTP error: 500", "code": -1}}, received
with HTTP 200, gives the same failure, message and code, as an HTTP response
with status 500. -/
theorem http_500_not_distinguishable :
    (sendRequest (Env.constant ⟨0, "No error", 500, "Internal Server Error"⟩ (.ok .null))
        "stake_info" (.object []) fresh_client).1 =
      { success := false, result := .null, error_message := "Request failed: HTTP error: 500",
        error_code := -1 } ∧
    receives
      (Env.replying (.object [("error", .object
        [("message", .string "Request failed: HTTP error: 500"),
          ("code", .number_integer (-1))])]))
      "stake_info" (.object []) fresh_client
      (.object [("error", .object
        [("message", .string "Request failed: HTTP error: 500"),
          ("code", .number_integer (-1))])]) ∧
    (sendRequest
        (Env.replying (.object [("error", .object
          [("message", .string "Request failed: HTTP error: 500"),
            ("code", .number_integer (-1))])]))
        "stake_info" (.object []) fresh_client).1 =
      { success := false, result := .null, error_message := "Request failed: HTTP error: 500",
        error_code := -1 } :=
  ⟨rfl, ⟨rfl, "request", rfl, rfl, rfl, rfl⟩, rfl⟩

theorem value_int_ok_of_number (f : Nat → Int) (members : List (String × Json)) (key : String)
    (d : Int)
    (h : ∀ v, (Json.object members).find key = some v →
      v.type_name = "number" ∨ v.type_name = "boolean") :
    ∃ c, (Json.object members).value_int f key d = .ok c := by
  cases hf : (Json.object members).find key with
  | none => exact ⟨d, by simp [Json.value_int, hf]⟩
  | some v =>
    have hv := h v hf
    cases v <;> simp [Json.type_name] at hv <;> simp [Json.value_int, hf]

/-- C17 (amended): when the "error" member of a parsed HTTP-200 body is a JSON
object, sendRequest returns a failure whether or not a "result" member is
present; its message is "Unknown error" when the object has no "message" member
and its "code" member, if there is one, is a number or a boolean; its code is
-1 when the object has no "code" member. -/
theorem sendRequest_error_object_defaults (env : Env) (method : String) (params : Json)
    (st : Impl) (body : Json) (members : List (String × Json))
    (hbody : receives env method params st body)
    (herror : body.find "error" = some (.object members)) :
    (sendRequest env method params st).1.success = false ∧
    (sendRequest env method params st).1.result = .null ∧
    ((Json.object members).find "message" = none →
      (∀ v, (Json.object members).find "code" = some v →
        v.type_name = "number" ∨ v.type_name = "boolean") →
      (sendRequest env method params st).1.error_message = "Unknown error") ∧
    ((Json.object members).find "code" = none →
      (sendRequest env method params st).1.error_code = -1) := by
  rw [sendRequest_of_receives env method params st body hbody,
    sendRequest_classify_error_object env body members herror]
  have hmsg : (Json.object members).find "message" = none →
      (Json.object members).value_string "message" "Unknown error" = .ok "Unknown error" :=
    fun hm => by simp [Json.value_string, hm]
  have hcode : (Json.object members).find "code" = none →
      (Json.object members).value_int env.double_to_int "code" (-1) = .ok (-1) :=
    fun hc => by simp [Json.value_int, hc]
  cases hs : (Json.object members).value_string "message" "Unknown error" with
  | error e =>
    refine ⟨rfl, rfl, fun hm _ => ?_, fun _ => rfl⟩
    rw [hmsg hm] at hs
    exact absurd hs (by simp)
  | ok error_msg =>
    cases hi : (Json.object members).value_int env.double_to_int "code" (-1) with
    | error e =>
      refine ⟨rfl, rfl, fun _ hc => ?_, fun _ => rfl⟩
      obtain ⟨c, hcv⟩ := value_int_ok_of_number env.double_to_int members "code" (-1) hc
      rw [hcv] at hi
      exact absurd hi (by simp)
    | ok error_code =>
      refine ⟨rfl, rfl, fun hm _ => ?_, fun hc => ?_⟩
      · rw [hmsg hm] at hs
        exact (Except.ok.inj hs).symm
      · rw [hcode hc] at hi
        exact (Except.ok.inj hi).symm

/-- An instance of C17 (amended): the body {"error": {}, "result": 7} gives the
failure "Unknown error" with code -1 although a result is present. -/
theorem sendRequest_error_object_defaults_witness :
    (sendRequest (Env.replying (.object [("error", .object []), ("result", .number_unsigned 7)]))
        "account_list" (.object []) fresh_client).1 =
      { success := false, result := .null, error_message := "Unknown error", error_code := -1 } :=
  have h := sendRequest_error_object_defaults
    (Env.replying (.object [("error", .object []), ("result", .number_unsigned 7)]))
    "account_list" (.object []) fresh_client
    (.object [("error", .object []), ("result", .number_unsigned 7)]) []
    ⟨rfl, "request", rfl, rfl, rfl, rfl⟩ rfl
  show (⟨_, _, _, _⟩ : RPCResponse) = _ from
    congr (congr (congr (congrArg RPCResponse.mk h.1) h.2.1)
      (h.2.2.1 rfl (fun v hv => absurd hv (by simp [Json.find])))) (h.2.2.2 rfl)

/-- C17 as stated fails: in the body {"error": {"code": "E1"}} the "error" member
is an object without a "message" member, but the failure returned does not
carry the message "Unknown error": the conversion of the code throws, and the
message is the text of the caught exception. -/
theorem sendRequest_unknown_error_not_used :
    receives (Env.replying (.object [("error", .object [("code", .string "E1")])]))
      "account_list" (.object []) fresh_client
      (.object [("error", .object [("code", .string "E1")])]) ∧
    (Json.object [("code", .string "E1")]).find "message" = none ∧
    (sendRequest (Env.replying (.object [("error", .object [("code", .string "E1")])]))
        "account_list" (.object []) fresh_client).1.error_message =
      "Request failed: [json.exception.type_error.302] type must be number, but is string" ∧
    (sendRequest (Env.replying (.object [("error", .object [("code", .string "E1")])]))
        "account_list" (.object []) fresh_client).1.error_message ≠ "Unknown error" :=
  ⟨⟨rfl, "request", rfl, rfl, rfl, rfl⟩, rfl, by decide, by decide⟩

end etrid
